import Mathlib

/-!
# BLE peripheral engine (`Core/Src/BLE_Process.c`): shallow embedding

The file-scope variables of `BLE_Process.c` become the fields of `World`.
Calls into the BlueNRG stack and the HAL are recorded, in program order, in
`World.calls`; values the stack hands back (status codes, handles, random
bytes) are inputs of the embedded routines.  A routine that may spin in
`while(1);` yields a `Run`, which tells a return from a halt.

Machine integers are naturals.  `uint16_t`/`uint32_t` arithmetic that can
wrap carries an explicit `%`.  Byte arrays are lists of naturals.
-/

set_option linter.unusedVariables false

namespace BLE

/-! ## Constants of `BLE_Process.h` -/

def TEXTSIZE : Nat := 50
def UART_TIMEOUT : Nat := 1000
def GAP_ROLE_PERIPHERAL : Nat := 0x01
def GAP_ROLE_BROADCASTER : Nat := 0x02
def GAP_ROLE_CENTRAL : Nat := 0x04
def GAP_ROLE_OBSERVER : Nat := 0x08
def GAP_PRIVACY_DISABLED : Nat := 0x00
def GAP_PRIVACY_HOST_ENABLED : Nat := 0x01
def GAP_PRIVACY_CONTROLLER_ENABLED : Nat := 0x02

/-- Connection status enum of `BLE_Process.h` (`BLE_State_t`). -/
inductive BLE_State_t where
  | STATE_NOT_CONNECTED
  | STATE_AWAITING_CONNECTION
  | STATE_CONNECTED
deriving DecidableEq, Repr

open BLE_State_t

/-- Numeric value of each enumerator, as written in the header. -/
def BLE_State_t.code : BLE_State_t → Nat
  | STATE_NOT_CONNECTED => 0x00
  | STATE_AWAITING_CONNECTION => 0x11
  | STATE_CONNECTED => 0x99

/-- Pin level enum of the HAL (`GPIO_PinState`), declared outside this repository. -/
inductive GPIO_PinState where
  | GPIO_PIN_RESET
  | GPIO_PIN_SET
deriving DecidableEq, Repr

open GPIO_PinState

/-- Macros that `BLE_Process.c` uses but that are declared in the BlueNRG stack
headers, in `bluenrg_conf.h` or in `main.h`; their values are parameters. -/
structure StackDefs where
  BLE_STATUS_SUCCESS : Nat
  GAP_PERIPHERAL_ROLE : Nat
  CONFIG_DATA_PUBADDR_OFFSET : Nat
  CONFIG_DATA_PUBADDR_LEN : Nat
  UUID_TYPE_16 : Nat
  UUID_TYPE_128 : Nat
  PRIMARY_SERVICE : Nat
  CHAR_PROP_INDICATE : Nat
  CHAR_PROP_NOTIFY : Nat
  CHAR_PROP_READ : Nat
  CHAR_PROP_WRITE : Nat
  CHAR_PROP_WRITE_WITHOUT_RESP : Nat
  ATTR_PERMISSION_NONE : Nat
  ATTR_ACCESS_READ_ONLY : Nat
  ATTR_ACCESS_READ_WRITE : Nat
  GATT_DONT_NOTIFY_EVENTS : Nat
  GATT_NOTIFY_ATTRIBUTE_WRITE : Nat
  CHAR_VALUE_LEN_CONSTANT : Nat
  CHAR_USER_DESC_UUID : Nat
  AD_TYPE_COMPLETE_LOCAL_NAME : Nat
  ADV_IND : Nat
  ADV_INTERV_MIN : Nat
  ADV_INTERV_MAX : Nat
  PUBLIC_ADDR : Nat
  NO_WHITE_LIST_USE : Nat
  NUCLEO_LED_GPIO_Port : Nat
  NUCLEO_LED_Pin : Nat
deriving DecidableEq, Repr

/-- A call that leaves `BLE_Process.c`, with the argument values passed.  A
pointer argument is recorded as the bytes it points to, `none` for `NULL`;
output pointers are left out (their results are inputs of the caller). -/
inductive ExtCall where
  | hci_init
  | hci_reset
  | HAL_Delay (ms : Nat)
  | aci_hal_set_tx_power_level (En_High_Power PA_Level : Nat)
  | HAL_UART_Transmit (pData : List Nat) (Size Timeout : Nat)
  | hci_le_rand
  | PRINT_DBG (fmt : String) (args : List Nat)
  | aci_hal_write_config_data (Offset Length : Nat) (Value : List Nat)
  | aci_gatt_init
  | aci_gap_init (Role privacy_enabled device_name_char_len : Nat)
  | aci_gatt_add_service (Service_UUID_Type : Nat) (Service_UUID : List Nat)
      (Service_Type Max_Attribute_Records : Nat)
  | aci_gatt_add_char (Service_Handle Char_UUID_Type : Nat) (Char_UUID : List Nat)
      (Char_Value_Length Char_Properties Security_Permissions GATT_Evt_Mask
        Enc_Key_Size Is_Variable : Nat)
  | aci_gatt_add_char_desc (Service_Handle Char_Handle Char_Desc_Uuid_Type Char_Desc_Uuid
        Char_Desc_Value_Max_Len Char_Desc_Value_Length : Nat) (Char_Desc_Value : List Nat)
      (Security_Permissions Access_Permissions GATT_Evt_Mask Enc_Key_Size Is_Variable : Nat)
  | hci_le_set_scan_response_data (Scan_Response_Data_Length : Nat)
      (Scan_Response_Data : Option (List Nat))
  | aci_gap_set_discoverable (Advertising_Type Advertising_Interval_Min
        Advertising_Interval_Max Own_Address_Type Advertising_Filter_Policy
        Local_Name_Length : Nat) (Local_Name : List Nat) (Service_Uuid_length : Nat)
      (Service_Uuid_List : Option (List Nat))
      (Slave_Conn_Interval_Min Slave_Conn_Interval_Max : Nat)
  | HAL_GPIO_WritePin (GPIOx GPIO_Pin : Nat) (PinState : GPIO_PinState)
  | aci_gatt_update_char_value (Service_Handle Char_Handle Val_Offset
        Char_Value_Length : Nat) (Char_Value : List Nat)
deriving DecidableEq, Repr

/-- The private struct `connectionStatus_t`. -/
structure connectionStatus_t where
  BLE_Client_Addr : List Nat
  deviceRole : Nat
  connectionhandle : Nat
  BLE_ConnInterval : Nat
  BLE_ConnLatency : Nat
  BLE_SupervisionTimeout : Nat
  ConnectionStatus : BLE_State_t
deriving DecidableEq, Repr

/-- File-scope state of `BLE_Process.c`, the `static` counter of
`TestUpdateCharacteristic`, the extern text buffer `pText`, and the trace of
outgoing calls. -/
structure World where
  discovery_time : Nat
  hGAPService : Nat
  hDevNameChar : Nat
  hAppearanceChar : Nat
  suuid_object : List Nat
  char_obj_1 : List Nat
  char_obj_2 : List Nat
  char_obj_3 : List Nat
  char_obj_4 : List Nat
  hService : Nat
  hClientIndicate : Nat
  hClientNotification : Nat
  hClientREAD : Nat
  hClientWRITE : Nat
  hFirstCharDesc : Nat
  hSecondCharDesc : Nat
  hThirdCharDesc : Nat
  hFourthCharDesc : Nat
  Conn_Details : connectionStatus_t
  counter : Nat
  pText : List Nat
  calls : List ExtCall
deriving DecidableEq, Repr

/-- Result of a routine that may end in `while(1);`. -/
inductive Run where
  | returned (w : World)
  | halted (w : World)
deriving DecidableEq, Repr

/-- State in which the routine returned or got stuck. -/
def Run.world : Run → World
  | .returned w => w
  | .halted w => w

/-- Sequencing: a halted run stays halted. -/
def Run.andThen (r : Run) (f : World → Run) : Run :=
  match r with
  | .returned w => f w
  | .halted w => .halted w

/-- Append one outgoing call to the trace. -/
def emit (w : World) (c : ExtCall) : World :=
  { w with calls := w.calls ++ [c] }

/-! ## Library routines on byte arrays -/

/-- Bytes of a C string literal, without the terminating NUL. -/
def cstr (s : String) : List Nat :=
  s.toList.map Char.toNat

/-- The stack's macro for libc `memcpy`: the first `n` bytes of `src` replace the
first `n` bytes of `dst`. -/
def BLUENRG_memcpy (dst src : List Nat) (n : Nat) : List Nat :=
  src.take n ++ dst.drop n

/-- The stack's macro for libc `memset`: the first `n` bytes of `dst` become `c`. -/
def BLUENRG_memset (dst : List Nat) (c n : Nat) : List Nat :=
  List.replicate n c ++ dst.drop n

/-- The libc `strncpy` on a NUL-free source: at most `n` bytes are copied and
the rest of the first `n` bytes of `dst` is padded with NUL. -/
def strncpy (dst src : List Nat) (n : Nat) : List Nat :=
  (src.take n ++ List.replicate (n - src.length) 0) ++ dst.drop n

/-- The error report used before each halt: `strncpy` into `pText`, then
`HAL_UART_Transmit` of `TEXTSIZE` bytes. -/
def reportError (w : World) (msg : String) : World :=
  let w1 := { w with pText := strncpy w.pText (cstr msg) TEXTSIZE }
  emit w1 (.HAL_UART_Transmit (w1.pText.take TEXTSIZE) TEXTSIZE UART_TIMEOUT)

/-! ## Values handed back by the stack during start-up -/

/-- Answers of the registration calls of `GAP_Peripheral_ConfigService`, in call
order: the handles written through the output pointers, and the status each
call returns (`aci_gatt_add_service`, the four `aci_gatt_add_char`, the four
`aci_gatt_add_char_desc`). -/
structure ConfigReplies where
  hService : Nat
  hClientIndicate : Nat
  hClientNotification : Nat
  hClientREAD : Nat
  hClientWRITE : Nat
  hFirstCharDesc : Nat
  hSecondCharDesc : Nat
  hThirdCharDesc : Nat
  hFourthCharDesc : Nat
  add_service_ret : Nat
  add_char_ret_1 : Nat
  add_char_ret_2 : Nat
  add_char_ret_3 : Nat
  add_char_ret_4 : Nat
  add_char_desc_ret_1 : Nat
  add_char_desc_ret_2 : Nat
  add_char_desc_ret_3 : Nat
  add_char_desc_ret_4 : Nat
deriving DecidableEq, Repr

/-- Everything the stack answers while `BlueNRG_Init` runs. -/
structure InitReplies where
  tx_power_ret : Nat
  rand_ret : Nat
  random_number : List Nat
  write_config_ret : Nat
  gatt_init_ret : Nat
  hGAPService : Nat
  hDevNameChar : Nat
  hAppearanceChar : Nat
  config : ConfigReplies
deriving DecidableEq, Repr

/-! ## `Setup_DeviceAddress` -/

/-- The loop `for (i=0; i<8; i++) discovery_time += 2*random_number[i];` on a
`uint16_t` accumulator. -/
def discoveryLoop (random_number : List Nat) (start : Nat) : Nat :=
  (List.range 8).foldl (fun acc i => (acc + 2 * random_number.getD i 0) % 65536) start

/-- The array `bdaddr` after its three low bytes are overwritten. -/
def bdaddrOf (random_number : List Nat) : List Nat :=
  [random_number.getD 0 0 % 256, random_number.getD 3 0 % 256,
   random_number.getD 6 0 % 256, 0xE1, 0x80, 0x02]

/-- The debug print of the public address, `bdaddr[5]` down to `bdaddr[0]`. -/
def printAddress (w : World) (bdaddr : List Nat) : World :=
  let w1 := emit w (.PRINT_DBG "Public address: " [])
  let w2 := [5, 4, 3, 2, 1].foldl
    (fun acc i => emit acc (.PRINT_DBG "%02X-" [bdaddr.getD i 0])) w1
  emit w2 (.PRINT_DBG "%02X\r\n" [bdaddr.getD 0 0])

/-- Embedding of `Setup_DeviceAddress`; `rand_ret`/`random_number` answer `hci_le_rand`
and `write_config_ret` answers `aci_hal_write_config_data`. -/
def Setup_DeviceAddress (K : StackDefs) (rand_ret : Nat) (random_number : List Nat)
    (write_config_ret : Nat) (w : World) : World :=
  let w1 := emit w .hci_le_rand
  let w2 := if rand_ret ≠ K.BLE_STATUS_SUCCESS then
      emit w1 (.PRINT_DBG "hci_le_rand() call failed: 0x%02x\r\n" [rand_ret])
    else w1
  let w3 := { w2 with discovery_time := discoveryLoop random_number 3000 }
  let bdaddr := bdaddrOf random_number
  let w4 := emit w3 (.aci_hal_write_config_data K.CONFIG_DATA_PUBADDR_OFFSET
    K.CONFIG_DATA_PUBADDR_LEN bdaddr)
  if write_config_ret ≠ K.BLE_STATUS_SUCCESS then
    emit w4 (.PRINT_DBG "Setting BD_ADDR failed 0x%02x\r\n" [write_config_ret])
  else
    printAddress w4 bdaddr

/-! ## `GAP_Peripheral_ConfigService` -/

def service_uuid : List Nat :=
  [0x5D,0xCE,0xE1,0x5A,0x50,0x51,0x1D,0xB1,0x63,0x4D,0xF9,0x03,0x8B,0x32,0x98,0xA8]
def char1_uuid : List Nat :=
  [0x96,0xF7,0x4E,0xBF,0xB3,0x8E,0xB7,0x82,0x36,0x4B,0x7E,0x8B,0x80,0xEA,0x25,0x9B]
def char2_uuid : List Nat :=
  [0x96,0xF7,0x4E,0xBF,0xB3,0x8E,0xB7,0x82,0x36,0x4B,0x7E,0x8B,0x81,0xEA,0x25,0x9B]
def char3_uuid : List Nat :=
  [0x96,0xF7,0x4E,0xBF,0xB3,0x8E,0xB7,0x82,0x36,0x4B,0x7E,0x8B,0x82,0xEA,0x25,0x9B]
def char4_uuid : List Nat :=
  [0x96,0xF7,0x4E,0xBF,0xB3,0x8E,0xB7,0x82,0x36,0x4B,0x7E,0x8B,0x83,0xEA,0x25,0x9B]

def char1name : List Nat := ['T','E','S','T','_','O','N','E'].map Char.toNat
def char2name : List Nat := ['T','E','S','T','_','T','W','O'].map Char.toNat
def char3name : List Nat := ['T','E','S','T','_','T','H','R','E','E'].map Char.toNat
def char4name : List Nat := ['T','E','S','T','_','F','O','U','R'].map Char.toNat

/-- Embedding of `GAP_Peripheral_ConfigService`.  The source calls every
registration routine as a statement and drops the status it returns, so of
`R` only the handles are read.  Each call is listed with the values its arguments hold
when it is made: a handle written by an earlier call is read from `R`. -/
def GAP_Peripheral_ConfigService (K : StackDefs) (R : ConfigReplies) (w : World) : World :=
  let suuid_object := BLUENRG_memcpy w.suuid_object service_uuid 16
  let add_service := ExtCall.aci_gatt_add_service K.UUID_TYPE_128 suuid_object
    K.PRIMARY_SERVICE 20
  let hService := R.hService
  let char_obj_1 := BLUENRG_memcpy w.char_obj_1 char1_uuid 16
  let char_obj_2 := BLUENRG_memcpy w.char_obj_2 char2_uuid 16
  let char_obj_3 := BLUENRG_memcpy w.char_obj_3 char3_uuid 16
  let char_obj_4 := BLUENRG_memcpy w.char_obj_4 char4_uuid 16
  let add_char_1 := ExtCall.aci_gatt_add_char hService K.UUID_TYPE_128 char_obj_1 20
    K.CHAR_PROP_INDICATE K.ATTR_PERMISSION_NONE K.GATT_DONT_NOTIFY_EVENTS
    0x07 K.CHAR_VALUE_LEN_CONSTANT
  let hClientIndicate := R.hClientIndicate
  let add_char_2 := ExtCall.aci_gatt_add_char hService K.UUID_TYPE_128 char_obj_2 20
    K.CHAR_PROP_NOTIFY K.ATTR_PERMISSION_NONE K.GATT_DONT_NOTIFY_EVENTS
    0x07 K.CHAR_VALUE_LEN_CONSTANT
  let hClientNotification := R.hClientNotification
  let add_char_3 := ExtCall.aci_gatt_add_char hService K.UUID_TYPE_128 char_obj_3 20
    K.CHAR_PROP_READ K.ATTR_PERMISSION_NONE K.GATT_DONT_NOTIFY_EVENTS
    0x07 K.CHAR_VALUE_LEN_CONSTANT
  let hClientREAD := R.hClientREAD
  let add_char_4 := ExtCall.aci_gatt_add_char hService K.UUID_TYPE_128 char_obj_4 20
    (K.CHAR_PROP_WRITE ||| K.CHAR_PROP_WRITE_WITHOUT_RESP) K.ATTR_PERMISSION_NONE
    K.GATT_NOTIFY_ATTRIBUTE_WRITE 0x07 K.CHAR_VALUE_LEN_CONSTANT
  let hClientWRITE := R.hClientWRITE
  let DescriptorProperty := K.CHAR_USER_DESC_UUID
  let add_desc_1 := ExtCall.aci_gatt_add_char_desc hService hClientIndicate K.UUID_TYPE_16
    DescriptorProperty 128 9 char1name K.ATTR_PERMISSION_NONE K.ATTR_ACCESS_READ_ONLY
    K.GATT_DONT_NOTIFY_EVENTS 7 K.CHAR_VALUE_LEN_CONSTANT
  let add_desc_2 := ExtCall.aci_gatt_add_char_desc hService hClientNotification K.UUID_TYPE_16
    DescriptorProperty 128 9 char2name K.ATTR_PERMISSION_NONE K.ATTR_ACCESS_READ_ONLY
    K.GATT_NOTIFY_ATTRIBUTE_WRITE 7 K.CHAR_VALUE_LEN_CONSTANT
  let add_desc_3 := ExtCall.aci_gatt_add_char_desc hService hClientREAD K.UUID_TYPE_16
    DescriptorProperty 128 11 char3name K.ATTR_PERMISSION_NONE K.ATTR_ACCESS_READ_ONLY
    K.GATT_DONT_NOTIFY_EVENTS 7 K.CHAR_VALUE_LEN_CONSTANT
  let add_desc_4 := ExtCall.aci_gatt_add_char_desc hService hClientWRITE K.UUID_TYPE_16
    DescriptorProperty 128 10 char4name K.ATTR_PERMISSION_NONE K.ATTR_ACCESS_READ_WRITE
    K.GATT_DONT_NOTIFY_EVENTS 7 K.CHAR_VALUE_LEN_CONSTANT
  { w with
    suuid_object := suuid_object, char_obj_1 := char_obj_1, char_obj_2 := char_obj_2,
    char_obj_3 := char_obj_3, char_obj_4 := char_obj_4,
    hService := hService, hClientIndicate := hClientIndicate,
    hClientNotification := hClientNotification, hClientREAD := hClientREAD,
    hClientWRITE := hClientWRITE,
    hFirstCharDesc := R.hFirstCharDesc, hSecondCharDesc := R.hSecondCharDesc,
    hThirdCharDesc := R.hThirdCharDesc, hFourthCharDesc := R.hFourthCharDesc,
    calls := w.calls ++ [add_service, add_char_1, add_char_2, add_char_3, add_char_4,
      add_desc_1, add_desc_2, add_desc_3, add_desc_4] }

/-! ## Connection context -/

/-- Embedding of `Server_ResetConnectionStatus`. -/
def Server_ResetConnectionStatus (w : World) : World :=
  let c := w.Conn_Details
  let c := { c with deviceRole := 0xFF }
  let c := { c with connectionhandle := 0xFFFF }
  let c := { c with BLE_ConnInterval := 0xFFFF }
  let c := { c with BLE_ConnLatency := 0xFFFF }
  let c := { c with BLE_SupervisionTimeout := 0xFFFF }
  let c := { c with ConnectionStatus := STATE_NOT_CONNECTED }
  let c := { c with BLE_Client_Addr := BLUENRG_memset c.BLE_Client_Addr 0 6 }
  { w with Conn_Details := c }

/-- The array `local_name` of `BlueNRG_MakeDeviceDiscoverable`. -/
def local_name (K : StackDefs) : List Nat :=
  K.AD_TYPE_COMPLETE_LOCAL_NAME :: ['E','y','e','w','e','a','r','B','L','E'].map Char.toNat

/-- The array `uuidscanresponse` of `BlueNRG_MakeDeviceDiscoverable`. -/
def uuidscanresponse : List Nat :=
  [0x11,0x06,0x5D,0xCE,0xE1,0x5A,0x50,0x51,0x1D,0xB1,0x63,0x4D,0xF9,0x03,0x8B,0x32,0x98,0xA8]

/-- Embedding of `BlueNRG_MakeDeviceDiscoverable`; `ret` is the status returned by
`aci_gap_set_discoverable`. -/
def BlueNRG_MakeDeviceDiscoverable (K : StackDefs) (ret : Nat) (w : World) : Run :=
  let w := emit w (.hci_le_set_scan_response_data 0 none)
  let w := emit w (.hci_le_set_scan_response_data 18 (some uuidscanresponse))
  let w := emit w (.aci_gap_set_discoverable K.ADV_IND K.ADV_INTERV_MIN K.ADV_INTERV_MAX
    K.PUBLIC_ADDR K.NO_WHITE_LIST_USE (local_name K).length (local_name K) 0 none 0 0)
  if ret ≠ K.BLE_STATUS_SUCCESS then
    .halted (reportError w "Error at Discoverable Mode\r\n")
  else
    .returned { w with Conn_Details :=
      { w.Conn_Details with ConnectionStatus := STATE_AWAITING_CONNECTION } }

/-- Embedding of `BlueNRG_Init` (peripheral build: `DEVICE_TYPE_GAP_PERIPHERAL` is
defined in the header, `ENABLE_SM` is not). -/
def BlueNRG_Init (K : StackDefs) (E : InitReplies) (w : World) : Run :=
  let w := emit w .hci_init
  let w := emit w .hci_reset
  let w := emit w (.HAL_Delay 2000)
  let w := emit w (.aci_hal_set_tx_power_level 1 4)
  if E.tx_power_ret ≠ K.BLE_STATUS_SUCCESS then
    .halted (reportError w "Error at Power Level Config\r\n")
  else
    let w := Setup_DeviceAddress K E.rand_ret E.random_number E.write_config_ret w
    let w := emit w .aci_gatt_init
    if E.gatt_init_ret ≠ K.BLE_STATUS_SUCCESS then
      .halted (reportError w "Error at GATT init\r\n")
    else
      let w := emit w (.aci_gap_init K.GAP_PERIPHERAL_ROLE GAP_PRIVACY_DISABLED 0x08)
      let w := { w with hGAPService := E.hGAPService, hDevNameChar := E.hDevNameChar,
                        hAppearanceChar := E.hAppearanceChar }
      let w := GAP_Peripheral_ConfigService K E.config w
      .returned (Server_ResetConnectionStatus w)

/-! ## Event callbacks -/

/-- Embedding of `hci_le_connection_complete_event`. -/
def hci_le_connection_complete_event (Status Connection_Handle Role Peer_Address_Type : Nat)
    (Peer_Address : List Nat)
    (Conn_Interval Conn_Latency Supervision_Timeout Master_Clock_Accuracy : Nat)
    (w : World) : World :=
  let c := w.Conn_Details
  let c := { c with connectionhandle := Connection_Handle }
  let c := { c with deviceRole := Role }
  let c := { c with BLE_Client_Addr := BLUENRG_memcpy c.BLE_Client_Addr Peer_Address 6 }
  let c := { c with BLE_ConnInterval := Conn_Interval }
  let c := { c with BLE_ConnLatency := Conn_Latency }
  let c := { c with BLE_SupervisionTimeout := Supervision_Timeout }
  let c := { c with ConnectionStatus := STATE_CONNECTED }
  { w with Conn_Details := c }

/-- Embedding of `hci_disconnection_complete_event`. -/
def hci_disconnection_complete_event (Status Connection_Handle Reason : Nat)
    (w : World) : World :=
  Server_ResetConnectionStatus w

/-- Embedding of `aci_gatt_notification_event` (empty body). -/
def aci_gatt_notification_event (Connection_Handle Attribute_Handle
    Attribute_Value_Length : Nat) (Attribute_Value : List Nat) (w : World) : World :=
  w

/-- Embedding of `aci_gatt_attribute_modified_event`.  `Attr_Data[i]` reads the
`i`-th byte of the payload; `hClientWRITE+1` is computed in `int`, so no wrap. -/
def aci_gatt_attribute_modified_event (K : StackDefs)
    (Connection_Handle Attr_Handle Offset Attr_Data_Length : Nat) (Attr_Data : List Nat)
    (w : World) : World :=
  if Attr_Handle = w.hClientWRITE + 1 then
    if Attr_Data_Length ≥ 2 then
      if (Attr_Data.getD 0 0 = 0x6F ∨ Attr_Data.getD 0 0 = 0x4F) ∧
          (Attr_Data.getD 1 0 = 0x6E ∨ Attr_Data.getD 1 0 = 0x4E) then
        let w := emit w (.HAL_GPIO_WritePin K.NUCLEO_LED_GPIO_Port K.NUCLEO_LED_Pin GPIO_PIN_SET)
        let buff := [0x4F, 0x4E, 0x41, 0x43, 0x4B, 0x00]
        emit w (.aci_gatt_update_char_value w.hService w.hClientNotification 0 6 buff)
      else if (Attr_Data.getD 0 0 = 0x6F ∨ Attr_Data.getD 0 0 = 0x4F) ∧
          (Attr_Data.getD 1 0 = 0x66 ∨ Attr_Data.getD 1 0 = 0x46) ∧
          (Attr_Data.getD 1 0 = 0x66 ∨ Attr_Data.getD 1 0 = 0x46) then
        let w := emit w (.HAL_GPIO_WritePin K.NUCLEO_LED_GPIO_Port K.NUCLEO_LED_Pin GPIO_PIN_RESET)
        let buff := [0x4F, 0x46, 0x46, 0x41, 0x43, 0x4B]
        emit w (.aci_gatt_update_char_value w.hService w.hClientNotification 0 6 buff)
      else w
    else w
  else if Attr_Handle = w.hClientIndicate + 2 then
    w
  else if Attr_Handle = w.hClientNotification + 2 then
    w
  else w

/-! ## Application loop -/

/-- The `switch` of `BlueNRG_Loop`, run after `hci_user_evt_proc()`; `ret` answers
`aci_gap_set_discoverable` when the switch re-advertises. -/
def BlueNRG_Loop_switch (K : StackDefs) (ret : Nat) (w : World) : Run :=
  match w.Conn_Details.ConnectionStatus with
  | STATE_NOT_CONNECTED =>
    (BlueNRG_MakeDeviceDiscoverable K ret w).andThen fun w =>
      .returned { w with Conn_Details :=
        { w.Conn_Details with ConnectionStatus := STATE_AWAITING_CONNECTION } }
  | STATE_AWAITING_CONNECTION =>
    .returned { w with Conn_Details :=
      { w.Conn_Details with ConnectionStatus := STATE_AWAITING_CONNECTION } }
  | STATE_CONNECTED =>
    .returned { w with Conn_Details :=
      { w.Conn_Details with ConnectionStatus := STATE_CONNECTED } }

/-- Embedding of `BlueNRG_Loop`.  `hci_user_evt_proc` belongs to the stack: its
effect on the state (the callbacks it fires for the queued events) is the
parameter `drain`. -/
def BlueNRG_Loop (K : StackDefs) (drain : World → World) (ret : Nat) (w : World) : Run :=
  BlueNRG_Loop_switch K ret (drain w)

/-- Embedding of `TestUpdateCharacteristic`; `counter` is the function's `static
uint32_t`. -/
def TestUpdateCharacteristic (w : World) : World :=
  let w :=
    if w.counter % 2 = 0 then
      let buff := [0x00, 0x11, 0x22, 0x33, 0x44, 0x55, 0x66, 0x77, 0x88, 0x99,
                   0xAA, 0xBB, 0xCC, 0xDD, 0xEE, 0xFF]
      let w := emit w (.aci_gatt_update_char_value w.hService w.hClientREAD 0 16 buff)
      emit w (.aci_gatt_update_char_value w.hService w.hClientIndicate 0 16 buff)
    else
      let buff := [0xFF, 0xEE, 0xDD, 0xCC, 0xBB, 0xAA, 0x99, 0x88, 0x77, 0x66,
                   0x55, 0x44, 0x33, 0x22, 0x11, 0x00]
      let w := emit w (.aci_gatt_update_char_value w.hService w.hClientREAD 0 16 buff)
      emit w (.aci_gatt_update_char_value w.hService w.hClientIndicate 0 16 buff)
  { w with counter := (w.counter + 1) % 4294967296 }

/-! ## Event dispatcher -/

/-- Entry of a dispatch table (`hci_events_table_type`,
`hci_le_meta_events_table_type`, `hci_vendor_specific_events_table_type`): an
event code and the routine called with the event payload. -/
structure hci_events_table_type where
  evt_code : Nat
  process : List Nat → World → World

/-- What `APP_UserEvtRx` takes from the stack headers and library: the packet
type and event code macros, the field accessors of the packed structs
`hci_spi_pckt`, `hci_event_pckt`, `evt_le_meta_event` and `evt_blue_aci` (each
reads a field of the bytes it is given), and the three dispatch tables. -/
structure HciDefs where
  HCI_EVENT_PKT : Nat
  EVT_LE_META_EVENT : Nat
  EVT_VENDOR : Nat
  pckt_type : List Nat → Nat
  pckt_data : List Nat → List Nat
  event_evt : List Nat → Nat
  event_data : List Nat → List Nat
  meta_subevent : List Nat → Nat
  meta_data : List Nat → List Nat
  blue_ecode : List Nat → Nat
  blue_data : List Nat → List Nat
  hci_le_meta_events_table : List hci_events_table_type
  hci_vendor_specific_events_table : List hci_events_table_type
  hci_events_table : List hci_events_table_type

/-- The loop `for (i = 0; i < size; i++) if (code == table[i].evt_code)
table[i].process(data);` shared by the three branches of `APP_UserEvtRx`. -/
def dispatchLoop (table : List hci_events_table_type) (code : Nat) (data : List Nat)
    (w : World) : World :=
  table.foldl (fun acc e => if code = e.evt_code then e.process data acc else acc) w

/-- Embedding of `APP_UserEvtRx`; `pData` is the received buffer. -/
def APP_UserEvtRx (H : HciDefs) (pData : List Nat) (w : World) : World :=
  if H.pckt_type pData = H.HCI_EVENT_PKT then
    let event_pckt := H.pckt_data pData
    if H.event_evt event_pckt = H.EVT_LE_META_EVENT then
      let evt := H.event_data event_pckt
      dispatchLoop H.hci_le_meta_events_table (H.meta_subevent evt) (H.meta_data evt) w
    else if H.event_evt event_pckt = H.EVT_VENDOR then
      let blue_evt := H.event_data event_pckt
      dispatchLoop H.hci_vendor_specific_events_table (H.blue_ecode blue_evt)
        (H.blue_data blue_evt) w
    else
      dispatchLoop H.hci_events_table (H.event_evt event_pckt) (H.event_data event_pckt) w
  else w

/-! ## Observers on the call trace and concrete inputs -/

/-- Length and bytes of a scan-response buffer handed to the stack; a call with
`NULL` hands no buffer. -/
def scanResponseData : ExtCall → Option (Nat × List Nat)
  | .hci_le_set_scan_response_data n (some d) => some (n, d)
  | _ => none

/-- The 16 UUID bytes of a 128-bit service registration. -/
def registeredServiceUUID : ExtCall → Option (List Nat)
  | .aci_gatt_add_service _ uuid _ _ => some (uuid.take 16)
  | _ => none

/-- The context value written by `Server_ResetConnectionStatus` into a 6-byte
address array. -/
def sentinelContext : connectionStatus_t :=
  { BLE_Client_Addr := [0, 0, 0, 0, 0, 0], deviceRole := 0xFF, connectionhandle := 0xFFFF,
    BLE_ConnInterval := 0xFFFF, BLE_ConnLatency := 0xFFFF, BLE_SupervisionTimeout := 0xFFFF,
    ConnectionStatus := STATE_NOT_CONNECTED }

/-- The state at process start: every static object is zero-initialised. -/
def bootWorld : World :=
  { discovery_time := 0, hGAPService := 0, hDevNameChar := 0, hAppearanceChar := 0,
    suuid_object := List.replicate 16 0, char_obj_1 := List.replicate 16 0,
    char_obj_2 := List.replicate 16 0, char_obj_3 := List.replicate 16 0,
    char_obj_4 := List.replicate 16 0,
    hService := 0, hClientIndicate := 0, hClientNotification := 0, hClientREAD := 0,
    hClientWRITE := 0, hFirstCharDesc := 0, hSecondCharDesc := 0, hThirdCharDesc := 0,
    hFourthCharDesc := 0,
    Conn_Details :=
      { BLE_Client_Addr := [0, 0, 0, 0, 0, 0], deviceRole := 0, connectionhandle := 0,
        BLE_ConnInterval := 0, BLE_ConnLatency := 0, BLE_SupervisionTimeout := 0,
        ConnectionStatus := STATE_NOT_CONNECTED },
    counter := 0, pText := List.replicate 50 0, calls := [] }

/-- One assignment of the stack macros, used to run the embedding on concrete
inputs (values of the BlueNRG-1 headers; the LED pin and the advertising
interval are board configuration). -/
def sampleDefs : StackDefs :=
  { BLE_STATUS_SUCCESS := 0x00, GAP_PERIPHERAL_ROLE := 0x01,
    CONFIG_DATA_PUBADDR_OFFSET := 0x00, CONFIG_DATA_PUBADDR_LEN := 6,
    UUID_TYPE_16 := 0x01, UUID_TYPE_128 := 0x02, PRIMARY_SERVICE := 0x01,
    CHAR_PROP_INDICATE := 0x20, CHAR_PROP_NOTIFY := 0x10, CHAR_PROP_READ := 0x02,
    CHAR_PROP_WRITE := 0x08, CHAR_PROP_WRITE_WITHOUT_RESP := 0x04,
    ATTR_PERMISSION_NONE := 0x00, ATTR_ACCESS_READ_ONLY := 0x01,
    ATTR_ACCESS_READ_WRITE := 0x03, GATT_DONT_NOTIFY_EVENTS := 0x00,
    GATT_NOTIFY_ATTRIBUTE_WRITE := 0x01, CHAR_VALUE_LEN_CONSTANT := 0x00,
    CHAR_USER_DESC_UUID := 0x2901, AD_TYPE_COMPLETE_LOCAL_NAME := 0x09,
    ADV_IND := 0x00, ADV_INTERV_MIN := 100, ADV_INTERV_MAX := 100,
    PUBLIC_ADDR := 0x00, NO_WHITE_LIST_USE := 0x00,
    NUCLEO_LED_GPIO_Port := 0, NUCLEO_LED_Pin := 0x0020 }

/-- Stack answers of a start-up in which every call succeeds. -/
def sampleReplies : InitReplies :=
  { tx_power_ret := 0, rand_ret := 0, random_number := [1, 2, 3, 4, 5, 6, 7, 8],
    write_config_ret := 0, gatt_init_ret := 0,
    hGAPService := 1, hDevNameChar := 2, hAppearanceChar := 4,
    config :=
      { hService := 12, hClientIndicate := 13, hClientNotification := 17, hClientREAD := 21,
        hClientWRITE := 24, hFirstCharDesc := 16, hSecondCharDesc := 20,
        hThirdCharDesc := 23, hFourthCharDesc := 26,
        add_service_ret := 0, add_char_ret_1 := 0, add_char_ret_2 := 0,
        add_char_ret_3 := 0, add_char_ret_4 := 0, add_char_desc_ret_1 := 0,
        add_char_desc_ret_2 := 0, add_char_desc_ret_3 := 0, add_char_desc_ret_4 := 0 } }

/-- A state with registered handles and a live connection. -/
def sampleWorld : World :=
  { bootWorld with
    hService := 12, hClientIndicate := 13, hClientNotification := 17, hClientREAD := 21,
    hClientWRITE := 24,
    Conn_Details :=
      { BLE_Client_Addr := [0xA1, 0xB2, 0xC3, 0xD4, 0xE5, 0xF6], deviceRole := 0x01,
        connectionhandle := 0x0801, BLE_ConnInterval := 24, BLE_ConnLatency := 0,
        BLE_SupervisionTimeout := 72, ConnectionStatus := STATE_CONNECTED } }

/-- What an observer could take as a fault raised by the connection-complete
handler for a role `Role`: the connection is not entered, or the role is not
stored, or some call leaves the module (for instance an error text on the
UART), or the text buffer `pText` is written. -/
def roleFaultSurfaced (Role : Nat) (w w1 : World) : Prop :=
  w1.Conn_Details.ConnectionStatus ≠ STATE_CONNECTED ∨
  w1.Conn_Details.deviceRole ≠ Role ∨
  w1.calls ≠ w.calls ∨
  w1.pText ≠ w.pText

instance (Role : Nat) (w w1 : World) : Decidable (roleFaultSurfaced Role w w1) := by
  unfold roleFaultSurfaced
  infer_instance

/-- Declared length and bytes of the local name passed to
`aci_gap_set_discoverable`. -/
def localNameArg : ExtCall → Option (Nat × List Nat)
  | .aci_gap_set_discoverable _ _ _ _ _ n name _ _ _ _ => some (n, name)
  | _ => none

/-- Offset, length and value of a configuration write. -/
def configDataWritten : ExtCall → Option (Nat × Nat × List Nat)
  | .aci_hal_write_config_data off len v => some (off, len, v)
  | _ => none

/-- Arguments of one characteristic registration; `Char_UUID` is the 16 bytes of
the 128-bit UUID object. -/
structure CharRegistration where
  Service_Handle : Nat
  Char_UUID_Type : Nat
  Char_UUID : List Nat
  Char_Value_Length : Nat
  Char_Properties : Nat
  Security_Permissions : Nat
  GATT_Evt_Mask : Nat
  Enc_Key_Size : Nat
  Is_Variable : Nat
deriving DecidableEq, Repr

/-- The characteristic registered by a call, if the call is `aci_gatt_add_char`. -/
def registeredChar : ExtCall → Option CharRegistration
  | .aci_gatt_add_char sh ut uuid len props perm mask key var =>
      some { Service_Handle := sh, Char_UUID_Type := ut, Char_UUID := uuid.take 16,
             Char_Value_Length := len, Char_Properties := props,
             Security_Permissions := perm, GATT_Evt_Mask := mask, Enc_Key_Size := key,
             Is_Variable := var }
  | _ => none

/-- Some registration call of `GAP_Peripheral_ConfigService` returned a status
other than `BLE_STATUS_SUCCESS`. -/
def registrationFailed (K : StackDefs) (R : ConfigReplies) : Prop :=
  R.add_service_ret ≠ K.BLE_STATUS_SUCCESS ∨
  R.add_char_ret_1 ≠ K.BLE_STATUS_SUCCESS ∨ R.add_char_ret_2 ≠ K.BLE_STATUS_SUCCESS ∨
  R.add_char_ret_3 ≠ K.BLE_STATUS_SUCCESS ∨ R.add_char_ret_4 ≠ K.BLE_STATUS_SUCCESS ∨
  R.add_char_desc_ret_1 ≠ K.BLE_STATUS_SUCCESS ∨
  R.add_char_desc_ret_2 ≠ K.BLE_STATUS_SUCCESS ∨
  R.add_char_desc_ret_3 ≠ K.BLE_STATUS_SUCCESS ∨
  R.add_char_desc_ret_4 ≠ K.BLE_STATUS_SUCCESS

instance (K : StackDefs) (R : ConfigReplies) : Decidable (registrationFailed K R) := by
  unfold registrationFailed
  infer_instance

/-- The same answers with every registration status replaced by success. -/
def withRegistrationSuccess (K : StackDefs) (E : InitReplies) : InitReplies :=
  { E with config :=
    { E.config with
      add_service_ret := K.BLE_STATUS_SUCCESS,
      add_char_ret_1 := K.BLE_STATUS_SUCCESS, add_char_ret_2 := K.BLE_STATUS_SUCCESS,
      add_char_ret_3 := K.BLE_STATUS_SUCCESS, add_char_ret_4 := K.BLE_STATUS_SUCCESS,
      add_char_desc_ret_1 := K.BLE_STATUS_SUCCESS,
      add_char_desc_ret_2 := K.BLE_STATUS_SUCCESS,
      add_char_desc_ret_3 := K.BLE_STATUS_SUCCESS,
      add_char_desc_ret_4 := K.BLE_STATUS_SUCCESS } }

/-- Whether a run ended in `while(1);`. -/
def Run.isHalted : Run → Bool
  | .halted _ => true
  | .returned _ => false

/-- The entries of a table whose code equals `code`, in table order. -/
def matchingEntries (table : List hci_events_table_type) (code : Nat) :
    List hci_events_table_type :=
  table.filter (fun e => decide (code = e.evt_code))

/-- Calling the routines of the given entries one after the other on `data`. -/
def runHandlers (entries : List hci_events_table_type) (data : List Nat) (w : World) : World :=
  entries.foldl (fun acc e => e.process data acc) w

/-- Single dispatch as the specification words it: the first entry whose code
matches, and only that one, is called; no match, no call. -/
def spec_singleDispatch (table : List hci_events_table_type) (code : Nat) (data : List Nat)
    (w : World) : World :=
  match table.find? (fun e => decide (code = e.evt_code)) with
  | some e => e.process data w
  | none => w

/-- `APP_UserEvtRx` as the specification words it: the same classification into
three families, with single dispatch in the selected table. -/
def spec_APP_UserEvtRx (H : HciDefs) (pData : List Nat) (w : World) : World :=
  if H.pckt_type pData = H.HCI_EVENT_PKT then
    let event_pckt := H.pckt_data pData
    if H.event_evt event_pckt = H.EVT_LE_META_EVENT then
      let evt := H.event_data event_pckt
      spec_singleDispatch H.hci_le_meta_events_table (H.meta_subevent evt) (H.meta_data evt) w
    else if H.event_evt event_pckt = H.EVT_VENDOR then
      let blue_evt := H.event_data event_pckt
      spec_singleDispatch H.hci_vendor_specific_events_table (H.blue_ecode blue_evt)
        (H.blue_data blue_evt) w
    else
      spec_singleDispatch H.hci_events_table (H.event_evt event_pckt)
        (H.event_data event_pckt) w
  else w

/-- Little-endian 16-bit field at offset `i`. -/
def le16 (d : List Nat) (i : Nat) : Nat :=
  d.getD i 0 + 256 * d.getD (i + 1) 0

/-- One assignment of the stack-side definitions, in the packet layout of the
BlueNRG-1 headers, with tables whose routines decode the payload and call the
callbacks of this module; used to run the dispatcher on concrete packets. -/
def sampleHci : HciDefs :=
  { HCI_EVENT_PKT := 0x04, EVT_LE_META_EVENT := 0x3E, EVT_VENDOR := 0xFF,
    pckt_type := fun b => b.getD 0 0,
    pckt_data := fun b => b.drop 1,
    event_evt := fun b => b.getD 0 0,
    event_data := fun b => b.drop 2,
    meta_subevent := fun b => b.getD 0 0,
    meta_data := fun b => b.drop 1,
    blue_ecode := fun b => le16 b 0,
    blue_data := fun b => b.drop 2,
    hci_le_meta_events_table :=
      [{ evt_code := 0x01,
         process := fun d w => hci_le_connection_complete_event (d.getD 0 0) (le16 d 1)
           (d.getD 3 0) (d.getD 4 0) ((d.drop 5).take 6) (le16 d 11) (le16 d 13) (le16 d 15)
           (d.getD 17 0) w }],
    hci_vendor_specific_events_table :=
      [{ evt_code := 0x0C01,
         process := fun d w => aci_gatt_attribute_modified_event sampleDefs (le16 d 0)
           (le16 d 2) (le16 d 4) (le16 d 6) (d.drop 8) w },
       { evt_code := 0x0C0F,
         process := fun d w => aci_gatt_notification_event (le16 d 0) (le16 d 2)
           (d.getD 4 0) (d.drop 5) w }],
    hci_events_table :=
      [{ evt_code := 0x05,
         process := fun d w => hci_disconnection_complete_event (d.getD 0 0) (le16 d 1)
           (d.getD 3 0) w }] }

/-- The sample definitions with a generic table that lists code `0x05` twice. -/
def duplicateHci : HciDefs :=
  { sampleHci with
    hci_events_table :=
      [{ evt_code := 0x05,
         process := fun d w => hci_disconnection_complete_event (d.getD 0 0) (le16 d 1)
           (d.getD 3 0) w },
       { evt_code := 0x05, process := fun _ w => TestUpdateCharacteristic w }] }

/-- The attribute-modified handler as the specification words it: the OFF test
checks the second byte once (`o`/`O` then `f`/`F`); everything else as in the
source. -/
def spec_aci_gatt_attribute_modified_event (K : StackDefs)
    (Connection_Handle Attr_Handle Offset Attr_Data_Length : Nat) (Attr_Data : List Nat)
    (w : World) : World :=
  if Attr_Handle = w.hClientWRITE + 1 then
    if Attr_Data_Length ≥ 2 then
      if (Attr_Data.getD 0 0 = 0x6F ∨ Attr_Data.getD 0 0 = 0x4F) ∧
          (Attr_Data.getD 1 0 = 0x6E ∨ Attr_Data.getD 1 0 = 0x4E) then
        let w := emit w (.HAL_GPIO_WritePin K.NUCLEO_LED_GPIO_Port K.NUCLEO_LED_Pin GPIO_PIN_SET)
        emit w (.aci_gatt_update_char_value w.hService w.hClientNotification 0 6
          [0x4F, 0x4E, 0x41, 0x43, 0x4B, 0x00])
      else if (Attr_Data.getD 0 0 = 0x6F ∨ Attr_Data.getD 0 0 = 0x4F) ∧
          (Attr_Data.getD 1 0 = 0x66 ∨ Attr_Data.getD 1 0 = 0x46) then
        let w := emit w (.HAL_GPIO_WritePin K.NUCLEO_LED_GPIO_Port K.NUCLEO_LED_Pin GPIO_PIN_RESET)
        emit w (.aci_gatt_update_char_value w.hService w.hClientNotification 0 6
          [0x4F, 0x46, 0x46, 0x41, 0x43, 0x4B])
      else w
    else w
  else w

/-- The pin level written by a call, if the call is `HAL_GPIO_WritePin`. -/
def ledWrite : ExtCall → Option GPIO_PinState
  | .HAL_GPIO_WritePin _ _ st => some st
  | _ => none

/-- Service handle, characteristic handle, offset, length and value of an
attribute update. -/
def charUpdate : ExtCall → Option (Nat × Nat × Nat × Nat × List Nat)
  | .aci_gatt_update_char_value sh ch off len v => some (sh, ch, off, len, v)
  | _ => none

/-- For a descriptor registration: the declared maximum length, the declared
value length, and the size of the array the value pointer refers to. -/
def descriptorValue : ExtCall → Option (Nat × Nat × Nat)
  | .aci_gatt_add_char_desc _ _ _ _ maxLen len value _ _ _ _ _ =>
      some (maxLen, len, value.length)
  | _ => none

/-- One step of the running system after start-up: an application-loop tick whose
advertising call succeeds, one of the two connection events, an
attribute-modified event, or a characteristic refresh. -/
inductive Step where
  | tick
  | connection_complete (Status Connection_Handle Role Peer_Address_Type : Nat)
      (Peer_Address : List Nat)
      (Conn_Interval Conn_Latency Supervision_Timeout Master_Clock_Accuracy : Nat)
  | disconnection_complete (Status Connection_Handle Reason : Nat)
  | attribute_modified (Connection_Handle Attr_Handle Offset Attr_Data_Length : Nat)
      (Attr_Data : List Nat)
  | refresh
deriving DecidableEq, Repr

/-- Effect of one step on the state. -/
def applyStep (K : StackDefs) (s : Step) (w : World) : World :=
  match s with
  | .tick => (BlueNRG_Loop_switch K K.BLE_STATUS_SUCCESS w).world
  | .connection_complete st ch role pat pa ci cl sto mca =>
      hci_le_connection_complete_event st ch role pat pa ci cl sto mca w
  | .disconnection_complete st ch reason => hci_disconnection_complete_event st ch reason w
  | .attribute_modified ch ah off len data =>
      aci_gatt_attribute_modified_event K ch ah off len data w
  | .refresh => TestUpdateCharacteristic w

/-- Effect of a finite sequence of steps, first step first. -/
def runSteps (K : StackDefs) (steps : List Step) (w : World) : World :=
  steps.foldl (fun acc s => applyStep K s acc) w

/-! ## Frame lemmas -/

@[simp]
theorem emit_Conn_Details (w : World) (c : ExtCall) :
    (emit w c).Conn_Details = w.Conn_Details := rfl

@[simp]
theorem emit_calls (w : World) (c : ExtCall) :
    (emit w c).calls = w.calls ++ [c] := rfl

@[simp]
theorem reportError_Conn_Details (w : World) (msg : String) :
    (reportError w msg).Conn_Details = w.Conn_Details := rfl

theorem Setup_DeviceAddress_Conn_Details (K : StackDefs) (rand_ret : Nat)
    (random_number : List Nat) (write_config_ret : Nat) (w : World) :
    (Setup_DeviceAddress K rand_ret random_number write_config_ret w).Conn_Details =
      w.Conn_Details := by
  unfold Setup_DeviceAddress printAddress
  by_cases h1 : rand_ret = K.BLE_STATUS_SUCCESS <;>
    by_cases h2 : write_config_ret = K.BLE_STATUS_SUCCESS <;>
    simp [h1, h2, emit]

theorem GAP_Peripheral_ConfigService_Conn_Details (K : StackDefs) (R : ConfigReplies)
    (w : World) :
    (GAP_Peripheral_ConfigService K R w).Conn_Details = w.Conn_Details := rfl

theorem reset_context_eq (w : World) (hw : w.Conn_Details.BLE_Client_Addr.length = 6) :
    (Server_ResetConnectionStatus w).Conn_Details = sentinelContext := by
  have hdrop : w.Conn_Details.BLE_Client_Addr.drop 6 = [] :=
    List.drop_eq_nil_of_le (le_of_eq hw)
  simp [Server_ResetConnectionStatus, BLUENRG_memset, sentinelContext, hdrop, List.replicate]

/-- A start-up that returns leaves the context in the state written by
`Server_ResetConnectionStatus`, applied to a world with the boot-time context. -/
theorem init_returned_context (K : StackDefs) (E : InitReplies) (boot w0 : World)
    (h : BlueNRG_Init K E boot = .returned w0) :
    ∃ w1 : World, w1.Conn_Details = boot.Conn_Details ∧
      w0 = Server_ResetConnectionStatus w1 := by
  unfold BlueNRG_Init at h
  by_cases h1 : E.tx_power_ret = K.BLE_STATUS_SUCCESS
  · by_cases h2 : E.gatt_init_ret = K.BLE_STATUS_SUCCESS
    · simp only [h1, h2, ne_eq, not_true_eq_false, if_false] at h
      injection h with h
      refine ⟨_, ?_, h.symm⟩
      rw [GAP_Peripheral_ConfigService_Conn_Details]
      simp [Setup_DeviceAddress_Conn_Details]
    · simp [h1, h2] at h
  · simp [h1] at h

/-! ## Connection state machine: reset and connect -/

/-- C1: from every connection context (any status, any field values, the address
being the struct's 6-byte array) and for every argument triple,
`hci_disconnection_complete_event` leaves status `STATE_NOT_CONNECTED`, a peer
address of six zero bytes, handle, interval, latency and supervision timeout
`0xFFFF`, and role `0xFF`. -/
theorem C1_disconnection_resets_context (Status Connection_Handle Reason : Nat) (w : World)
    (hw : w.Conn_Details.BLE_Client_Addr.length = 6) :
    (hci_disconnection_complete_event Status Connection_Handle Reason w).Conn_Details =
      { BLE_Client_Addr := [0, 0, 0, 0, 0, 0], deviceRole := 0xFF,
        connectionhandle := 0xFFFF, BLE_ConnInterval := 0xFFFF, BLE_ConnLatency := 0xFFFF,
        BLE_SupervisionTimeout := 0xFFFF, ConnectionStatus := STATE_NOT_CONNECTED } := by
  unfold hci_disconnection_complete_event
  exact reset_context_eq w hw

theorem C1_disconnection_resets_context_witness :
    sampleWorld.Conn_Details.BLE_Client_Addr.length = 6 ∧
    sampleWorld.Conn_Details.ConnectionStatus = STATE_CONNECTED ∧
    (hci_disconnection_complete_event 0 0x0801 0x13 sampleWorld).Conn_Details =
      { BLE_Client_Addr := [0, 0, 0, 0, 0, 0], deviceRole := 0xFF,
        connectionhandle := 0xFFFF, BLE_ConnInterval := 0xFFFF, BLE_ConnLatency := 0xFFFF,
        BLE_SupervisionTimeout := 0xFFFF, ConnectionStatus := STATE_NOT_CONNECTED } :=
  ⟨by decide, by decide,
    C1_disconnection_resets_context 0 0x0801 0x13 sampleWorld (by decide)⟩

theorem connect_context_eq (Status Connection_Handle Role Peer_Address_Type : Nat)
    (Peer_Address : List Nat)
    (Conn_Interval Conn_Latency Supervision_Timeout Master_Clock_Accuracy : Nat) (w : World)
    (hw : w.Conn_Details.BLE_Client_Addr.length = 6) (hp : Peer_Address.length = 6) :
    (hci_le_connection_complete_event Status Connection_Handle Role Peer_Address_Type
        Peer_Address Conn_Interval Conn_Latency Supervision_Timeout Master_Clock_Accuracy
        w).Conn_Details =
      { BLE_Client_Addr := Peer_Address, deviceRole := Role,
        connectionhandle := Connection_Handle, BLE_ConnInterval := Conn_Interval,
        BLE_ConnLatency := Conn_Latency, BLE_SupervisionTimeout := Supervision_Timeout,
        ConnectionStatus := STATE_CONNECTED } := by
  have hdrop : w.Conn_Details.BLE_Client_Addr.drop 6 = [] :=
    List.drop_eq_nil_of_le (le_of_eq hw)
  have htake : Peer_Address.take 6 = Peer_Address :=
    List.take_of_length_le (le_of_eq hp)
  simp [hci_le_connection_complete_event, BLUENRG_memcpy, hdrop, htake]

/-- C2: round-trip reset.  Whenever start-up returns (`BlueNRG_Init` ends with
`Server_ResetConnectionStatus`), a connection-complete event followed by a
disconnection-complete event, from any context, yields a context equal in every
field, status included, to the one start-up established. -/
theorem C2_roundtrip_reset (K : StackDefs) (E : InitReplies) (boot w0 w : World)
    (Status Connection_Handle Role Peer_Address_Type : Nat) (Peer_Address : List Nat)
    (Conn_Interval Conn_Latency Supervision_Timeout Master_Clock_Accuracy : Nat)
    (Status2 Connection_Handle2 Reason : Nat)
    (hboot : boot.Conn_Details.BLE_Client_Addr.length = 6)
    (hw : w.Conn_Details.BLE_Client_Addr.length = 6)
    (hp : Peer_Address.length = 6)
    (hinit : BlueNRG_Init K E boot = .returned w0) :
    (hci_disconnection_complete_event Status2 Connection_Handle2 Reason
      (hci_le_connection_complete_event Status Connection_Handle Role Peer_Address_Type
        Peer_Address Conn_Interval Conn_Latency Supervision_Timeout Master_Clock_Accuracy
        w)).Conn_Details = w0.Conn_Details := by
  obtain ⟨w1, hw1, rfl⟩ := init_returned_context K E boot w0 hinit
  have h1 : (Server_ResetConnectionStatus w1).Conn_Details = sentinelContext :=
    reset_context_eq w1 (by rw [hw1]; exact hboot)
  have hc := connect_context_eq Status Connection_Handle Role Peer_Address_Type Peer_Address
    Conn_Interval Conn_Latency Supervision_Timeout Master_Clock_Accuracy w hw hp
  have h2 : (hci_disconnection_complete_event Status2 Connection_Handle2 Reason
      (hci_le_connection_complete_event Status Connection_Handle Role Peer_Address_Type
        Peer_Address Conn_Interval Conn_Latency Supervision_Timeout Master_Clock_Accuracy
        w)).Conn_Details = sentinelContext := by
    unfold hci_disconnection_complete_event
    apply reset_context_eq
    rw [hc]
    exact hp
  rw [h1, h2]

theorem C2_roundtrip_reset_witness :
    ∃ w0 : World, BlueNRG_Init sampleDefs sampleReplies bootWorld = .returned w0 ∧
      (hci_disconnection_complete_event 0 0x0801 0x13
        (hci_le_connection_complete_event 0 0x0801 0x01 0 [0xA1, 0xB2, 0xC3, 0xD4, 0xE5, 0xF6]
          24 0 72 0 w0)).Conn_Details = w0.Conn_Details :=
  ⟨(BlueNRG_Init sampleDefs sampleReplies bootWorld).world, by decide,
    C2_roundtrip_reset sampleDefs sampleReplies bootWorld
      (BlueNRG_Init sampleDefs sampleReplies bootWorld).world
      (BlueNRG_Init sampleDefs sampleReplies bootWorld).world
      0 0x0801 0x01 0 [0xA1, 0xB2, 0xC3, 0xD4, 0xE5, 0xF6] 24 0 72 0 0 0x0801 0x13
      (by decide) (by decide) (by decide) (by decide)⟩

/-- C3: for every prior context (address array of 6 bytes) and every
connection-complete event with a 6-byte `Peer_Address`,
`hci_le_connection_complete_event` records every supplied field: handle, role,
the peer address byte for byte, interval, latency, supervision timeout, and
sets status `STATE_CONNECTED`. -/
theorem C3_connection_records_fields (Status Connection_Handle Role Peer_Address_Type : Nat)
    (Peer_Address : List Nat)
    (Conn_Interval Conn_Latency Supervision_Timeout Master_Clock_Accuracy : Nat) (w : World)
    (hw : w.Conn_Details.BLE_Client_Addr.length = 6) (hp : Peer_Address.length = 6) :
    let w1 := hci_le_connection_complete_event Status Connection_Handle Role
      Peer_Address_Type Peer_Address Conn_Interval Conn_Latency Supervision_Timeout
      Master_Clock_Accuracy w
    w1.Conn_Details.connectionhandle = Connection_Handle ∧
    w1.Conn_Details.deviceRole = Role ∧
    w1.Conn_Details.BLE_Client_Addr = Peer_Address ∧
    (∀ i, i < 6 → w1.Conn_Details.BLE_Client_Addr.get? i = Peer_Address.get? i) ∧
    w1.Conn_Details.BLE_ConnInterval = Conn_Interval ∧
    w1.Conn_Details.BLE_ConnLatency = Conn_Latency ∧
    w1.Conn_Details.BLE_SupervisionTimeout = Supervision_Timeout ∧
    w1.Conn_Details.ConnectionStatus = STATE_CONNECTED := by
  intro w1
  have hc : w1.Conn_Details = _ :=
    connect_context_eq Status Connection_Handle Role Peer_Address_Type Peer_Address
      Conn_Interval Conn_Latency Supervision_Timeout Master_Clock_Accuracy w hw hp
  rw [hc]
  exact ⟨rfl, rfl, rfl, fun _ _ => rfl, rfl, rfl, rfl, rfl⟩

theorem C3_connection_records_fields_witness :
    bootWorld.Conn_Details.BLE_Client_Addr.length = 6 ∧
    [0xA1, 0xB2, 0xC3, 0xD4, 0xE5, 0xF6].length = 6 ∧
    (let w1 := hci_le_connection_complete_event 0 0x0801 0x01 0
        [0xA1, 0xB2, 0xC3, 0xD4, 0xE5, 0xF6] 24 0 72 0 bootWorld
     w1.Conn_Details.connectionhandle = 0x0801 ∧
     w1.Conn_Details.deviceRole = 0x01 ∧
     w1.Conn_Details.BLE_Client_Addr = [0xA1, 0xB2, 0xC3, 0xD4, 0xE5, 0xF6] ∧
     (∀ i, i < 6 → w1.Conn_Details.BLE_Client_Addr.get? i =
        [0xA1, 0xB2, 0xC3, 0xD4, 0xE5, 0xF6].get? i) ∧
     w1.Conn_Details.BLE_ConnInterval = 24 ∧
     w1.Conn_Details.BLE_ConnLatency = 0 ∧
     w1.Conn_Details.BLE_SupervisionTimeout = 72 ∧
     w1.Conn_Details.ConnectionStatus = STATE_CONNECTED) :=
  ⟨by decide, by decide,
    C3_connection_records_fields 0 0x0801 0x01 0 [0xA1, 0xB2, 0xC3, 0xD4, 0xE5, 0xF6]
      24 0 72 0 bootWorld (by decide) (by decide)⟩

/-- C4 (as stated, refuted): with `Role = 0x00` (master, not `GAP_ROLE_PERIPHERAL`) the
handler raises no fault: the role is stored, the status becomes `STATE_CONNECTED`,
no call leaves the module and the text buffer is untouched. -/
theorem C4_role_fault_counterexample :
    (0x00 : Nat) ≠ GAP_ROLE_PERIPHERAL ∧
    ¬ roleFaultSurfaced 0x00 bootWorld
        (hci_le_connection_complete_event 0 0x0801 0x00 0
          [0xA1, 0xB2, 0xC3, 0xD4, 0xE5, 0xF6] 24 0 72 0 bootWorld) := by
  decide

/-- C4 (amended): a connection-complete event whose `Role` is not
`GAP_ROLE_PERIPHERAL` is handled like any other: the handler returns, stores the
reported role, sets status `STATE_CONNECTED`, issues no call and changes nothing
outside the connection context. -/
theorem C4_role_accepted_silently (Status Connection_Handle Role Peer_Address_Type : Nat)
    (Peer_Address : List Nat)
    (Conn_Interval Conn_Latency Supervision_Timeout Master_Clock_Accuracy : Nat) (w : World)
    (hrole : Role ≠ GAP_ROLE_PERIPHERAL) :
    let w1 := hci_le_connection_complete_event Status Connection_Handle Role
      Peer_Address_Type Peer_Address Conn_Interval Conn_Latency Supervision_Timeout
      Master_Clock_Accuracy w
    w1.Conn_Details.deviceRole = Role ∧
    w1.Conn_Details.ConnectionStatus = STATE_CONNECTED ∧
    ¬ roleFaultSurfaced Role w w1 ∧
    w1 = { w with Conn_Details := w1.Conn_Details } := by
  intro w1
  refine ⟨rfl, rfl, ?_, rfl⟩
  unfold roleFaultSurfaced
  simp [w1, hci_le_connection_complete_event]

theorem C4_role_accepted_silently_witness :
    (0x04 : Nat) ≠ GAP_ROLE_PERIPHERAL ∧
    (let w1 := hci_le_connection_complete_event 0 0x0801 0x04 0
        [0xA1, 0xB2, 0xC3, 0xD4, 0xE5, 0xF6] 24 0 72 0 bootWorld
     w1.Conn_Details.deviceRole = 0x04 ∧
     w1.Conn_Details.ConnectionStatus = STATE_CONNECTED ∧
     ¬ roleFaultSurfaced 0x04 bootWorld w1 ∧
     w1 = { bootWorld with Conn_Details := w1.Conn_Details }) :=
  ⟨by decide,
    C4_role_accepted_silently 0 0x0801 0x04 0 [0xA1, 0xB2, 0xC3, 0xD4, 0xE5, 0xF6]
      24 0 72 0 bootWorld (by decide)⟩

/-! ## Application loop -/

/-- C5: the `switch` of `BlueNRG_Loop` has a defined outcome for each status and each
answer of the stack.  From `STATE_NOT_CONNECTED` it is one run of
`BlueNRG_MakeDeviceDiscoverable`, whatever `aci_gap_set_discoverable` returns: the
three stack calls are issued once; on success it returns in
`STATE_AWAITING_CONNECTION` with every other field unchanged, on failure it
reports the error and halts with the context untouched.  From
`STATE_AWAITING_CONNECTION` and from `STATE_CONNECTED` it returns the state
unchanged, with no call issued. -/
theorem C5_loop_switch (K : StackDefs) (ret : Nat) (w : World) :
    match w.Conn_Details.ConnectionStatus with
    | STATE_NOT_CONNECTED =>
        BlueNRG_Loop_switch K ret w = BlueNRG_MakeDeviceDiscoverable K ret w ∧
        BlueNRG_Loop_switch K ret w =
          (if ret = K.BLE_STATUS_SUCCESS then
            .returned
              { w with
                Conn_Details :=
                  { w.Conn_Details with ConnectionStatus := STATE_AWAITING_CONNECTION },
                calls := w.calls ++
                  [.hci_le_set_scan_response_data 0 none,
                   .hci_le_set_scan_response_data 18 (some uuidscanresponse),
                   .aci_gap_set_discoverable K.ADV_IND K.ADV_INTERV_MIN K.ADV_INTERV_MAX
                     K.PUBLIC_ADDR K.NO_WHITE_LIST_USE 11 (local_name K) 0 none 0 0] }
          else
            .halted
              { w with
                pText := strncpy w.pText (cstr "Error at Discoverable Mode\r\n") TEXTSIZE,
                calls := w.calls ++
                  [.hci_le_set_scan_response_data 0 none,
                   .hci_le_set_scan_response_data 18 (some uuidscanresponse),
                   .aci_gap_set_discoverable K.ADV_IND K.ADV_INTERV_MIN K.ADV_INTERV_MAX
                     K.PUBLIC_ADDR K.NO_WHITE_LIST_USE 11 (local_name K) 0 none 0 0,
                   .HAL_UART_Transmit
                     ((strncpy w.pText (cstr "Error at Discoverable Mode\r\n")
                       TEXTSIZE).take TEXTSIZE) TEXTSIZE UART_TIMEOUT] }) ∧
        (((BlueNRG_Loop_switch K ret w).world.calls.drop w.calls.length).filterMap
          localNameArg).length = 1
    | STATE_AWAITING_CONNECTION => BlueNRG_Loop_switch K ret w = .returned w
    | STATE_CONNECTED => BlueNRG_Loop_switch K ret w = .returned w := by
  rcases w with ⟨dt, g1, g2, g3, u0, u1, u2, u3, u4, h0, h1, h2, h3, h4, d1, d2, d3, d4,
    ⟨addr, role, ch, ci, cl, st, status⟩, cnt, txt, calls⟩
  cases status
  · by_cases hret : ret = K.BLE_STATUS_SUCCESS
    · simp [BlueNRG_Loop_switch, BlueNRG_MakeDeviceDiscoverable, Run.andThen, Run.world,
        emit, hret, local_name, localNameArg]
    · simp [BlueNRG_Loop_switch, BlueNRG_MakeDeviceDiscoverable, Run.andThen, Run.world,
        emit, reportError, hret, local_name, localNameArg]
  · simp [BlueNRG_Loop_switch]
  · simp [BlueNRG_Loop_switch]

theorem C5_loop_switch_witness :
    BlueNRG_Loop_switch sampleDefs 0 bootWorld = .returned
      { bootWorld with
        Conn_Details :=
          { bootWorld.Conn_Details with ConnectionStatus := STATE_AWAITING_CONNECTION },
        calls :=
          [.hci_le_set_scan_response_data 0 none,
           .hci_le_set_scan_response_data 18 (some uuidscanresponse),
           .aci_gap_set_discoverable 0 100 100 0 0 11 (local_name sampleDefs) 0 none 0 0] } ∧
    BlueNRG_Loop_switch sampleDefs 7 bootWorld =
      BlueNRG_MakeDeviceDiscoverable sampleDefs 7 bootWorld ∧
    (BlueNRG_Loop_switch sampleDefs 7 bootWorld).isHalted = true ∧
    (BlueNRG_Loop_switch sampleDefs 7 bootWorld).world.Conn_Details =
      bootWorld.Conn_Details ∧
    ((BlueNRG_Loop_switch sampleDefs 7 bootWorld).world.calls.filterMap
      localNameArg).length = 1 ∧
    BlueNRG_Loop_switch sampleDefs 7 sampleWorld = .returned sampleWorld :=
  ⟨(C5_loop_switch sampleDefs 0 bootWorld).2.1,
    (C5_loop_switch sampleDefs 7 bootWorld).1,
    by rw [(C5_loop_switch sampleDefs 7 bootWorld).2.1]; decide,
    by rw [(C5_loop_switch sampleDefs 7 bootWorld).2.1]; decide,
    (C5_loop_switch sampleDefs 7 bootWorld).2.2,
    C5_loop_switch sampleDefs 7 sampleWorld⟩

/-! ## Attribute access handler -/

/-- C6: an attribute-modified event on the write characteristic's value handle
(`hClientWRITE+1`) with `Attr_Data_Length >= 2`, first byte `o`/`O` and second byte
`n`/`N` sets the LED pin and then issues exactly one attribute update: service
`hService`, characteristic `hClientNotification`, offset 0, length 6, value
`4F 4E 41 43 4B 00`.  Nothing else changes. -/
theorem C6_on_command (K : StackDefs)
    (Connection_Handle Attr_Handle Offset Attr_Data_Length b0 b1 : Nat) (rest : List Nat)
    (w : World)
    (hh : Attr_Handle = w.hClientWRITE + 1) (hl : Attr_Data_Length ≥ 2)
    (h0 : b0 = 0x6F ∨ b0 = 0x4F) (h1 : b1 = 0x6E ∨ b1 = 0x4E) :
    aci_gatt_attribute_modified_event K Connection_Handle Attr_Handle Offset Attr_Data_Length
        (b0 :: b1 :: rest) w =
      { w with calls := w.calls ++
          [.HAL_GPIO_WritePin K.NUCLEO_LED_GPIO_Port K.NUCLEO_LED_Pin GPIO_PIN_SET,
           .aci_gatt_update_char_value w.hService w.hClientNotification 0 6
              [0x4F, 0x4E, 0x41, 0x43, 0x4B, 0x00]] } := by
  simp [aci_gatt_attribute_modified_event, hh, hl, h0, h1, emit]

theorem C6_on_command_witness :
    aci_gatt_attribute_modified_event sampleDefs 0x0801 25 0 2 [0x4F, 0x4E] sampleWorld =
      { sampleWorld with calls :=
          [.HAL_GPIO_WritePin 0 0x0020 GPIO_PIN_SET,
           .aci_gatt_update_char_value 12 17 0 6 [0x4F, 0x4E, 0x41, 0x43, 0x4B, 0x00]] } ∧
    aci_gatt_attribute_modified_event sampleDefs 0x0801 25 0 2 [0x6F, 0x6E] sampleWorld =
      { sampleWorld with calls :=
          [.HAL_GPIO_WritePin 0 0x0020 GPIO_PIN_SET,
           .aci_gatt_update_char_value 12 17 0 6 [0x4F, 0x4E, 0x41, 0x43, 0x4B, 0x00]] } :=
  ⟨C6_on_command sampleDefs 0x0801 25 0 2 0x4F 0x4E [] sampleWorld (by decide) (by decide)
      (by decide) (by decide),
    C6_on_command sampleDefs 0x0801 25 0 2 0x6F 0x6E [] sampleWorld (by decide) (by decide)
      (by decide) (by decide)⟩

/-- C7: an attribute-modified event on the write characteristic's value handle
with `Attr_Data_Length >= 2`, first byte `o`/`O` and second byte `f`/`F`, whatever
follows, resets the LED pin and then issues exactly one attribute update:
characteristic `hClientNotification`, offset 0, length 6, value
`4F 46 46 41 43 4B`.  Nothing else changes. -/
theorem C7_off_command (K : StackDefs)
    (Connection_Handle Attr_Handle Offset Attr_Data_Length b0 b1 : Nat) (rest : List Nat)
    (w : World)
    (hh : Attr_Handle = w.hClientWRITE + 1) (hl : Attr_Data_Length ≥ 2)
    (h0 : b0 = 0x6F ∨ b0 = 0x4F) (h1 : b1 = 0x66 ∨ b1 = 0x46) :
    aci_gatt_attribute_modified_event K Connection_Handle Attr_Handle Offset Attr_Data_Length
        (b0 :: b1 :: rest) w =
      { w with calls := w.calls ++
          [.HAL_GPIO_WritePin K.NUCLEO_LED_GPIO_Port K.NUCLEO_LED_Pin GPIO_PIN_RESET,
           .aci_gatt_update_char_value w.hService w.hClientNotification 0 6
              [0x4F, 0x46, 0x46, 0x41, 0x43, 0x4B]] } := by
  have hn : ¬ (b1 = 0x6E ∨ b1 = 0x4E) := by omega
  simp only [aci_gatt_attribute_modified_event, hh, hl, List.getD_cons_zero,
    List.getD_cons_succ, if_true, ge_iff_le]
  rw [if_neg (fun h => hn h.2), if_pos ⟨h0, h1, h1⟩]
  simp [emit]

theorem C7_off_command_witness :
    aci_gatt_attribute_modified_event sampleDefs 0x0801 25 0 3 [0x4F, 0x46, 0x46]
        sampleWorld =
      { sampleWorld with calls :=
          [.HAL_GPIO_WritePin 0 0x0020 GPIO_PIN_RESET,
           .aci_gatt_update_char_value 12 17 0 6 [0x4F, 0x46, 0x46, 0x41, 0x43, 0x4B]] } :=
  C7_off_command sampleDefs 0x0801 25 0 3 0x4F 0x46 [0x46] sampleWorld (by decide)
    (by decide) (by decide) (by decide)

/-- C8: the handler changes nothing (no LED write, no attribute update, no state
change; it always returns) when the handle is not `hClientWRITE+1`, or
`Attr_Data_Length < 2`, or the first two bytes match neither the ON nor the OFF
pattern. -/
theorem C8_unrecognised_is_noop (K : StackDefs)
    (Connection_Handle Attr_Handle Offset Attr_Data_Length : Nat) (Attr_Data : List Nat)
    (w : World)
    (h : Attr_Handle ≠ w.hClientWRITE + 1 ∨ Attr_Data_Length < 2 ∨
      (¬ ((Attr_Data.getD 0 0 = 0x6F ∨ Attr_Data.getD 0 0 = 0x4F) ∧
          (Attr_Data.getD 1 0 = 0x6E ∨ Attr_Data.getD 1 0 = 0x4E)) ∧
       ¬ ((Attr_Data.getD 0 0 = 0x6F ∨ Attr_Data.getD 0 0 = 0x4F) ∧
          (Attr_Data.getD 1 0 = 0x66 ∨ Attr_Data.getD 1 0 = 0x46)))) :
    aci_gatt_attribute_modified_event K Connection_Handle Attr_Handle Offset Attr_Data_Length
        Attr_Data w = w := by
  unfold aci_gatt_attribute_modified_event
  rcases h with h | h | ⟨hon, hoff⟩
  · rw [if_neg h]
    split_ifs <;> rfl
  · have hl : ¬ Attr_Data_Length ≥ 2 := by omega
    split_ifs <;> rfl
  · have hoff3 : ¬ ((Attr_Data.getD 0 0 = 0x6F ∨ Attr_Data.getD 0 0 = 0x4F) ∧
        (Attr_Data.getD 1 0 = 0x66 ∨ Attr_Data.getD 1 0 = 0x46) ∧
        (Attr_Data.getD 1 0 = 0x66 ∨ Attr_Data.getD 1 0 = 0x46)) :=
      fun hc => hoff ⟨hc.1, hc.2.1⟩
    rw [if_neg hon, if_neg hoff3]
    split_ifs <;> rfl

theorem C8_unrecognised_is_noop_witness :
    aci_gatt_attribute_modified_event sampleDefs 0x0801 15 0 2 [0x01, 0x00] sampleWorld =
      sampleWorld ∧
    aci_gatt_attribute_modified_event sampleDefs 0x0801 25 0 1 [0x4F] sampleWorld =
      sampleWorld ∧
    aci_gatt_attribute_modified_event sampleDefs 0x0801 25 0 2 [0x4F, 0x4B] sampleWorld =
      sampleWorld :=
  ⟨C8_unrecognised_is_noop sampleDefs 0x0801 15 0 2 [0x01, 0x00] sampleWorld
      (Or.inl (by decide)),
    C8_unrecognised_is_noop sampleDefs 0x0801 25 0 1 [0x4F] sampleWorld
      (Or.inr (Or.inl (by decide))),
    C8_unrecognised_is_noop sampleDefs 0x0801 25 0 2 [0x4F, 0x4B] sampleWorld
      (Or.inr (Or.inr (by decide)))⟩

/-! ## Periodic characteristic refresh -/

theorem TestUpdateCharacteristic_calls (w : World) :
    (TestUpdateCharacteristic w).calls = w.calls ++
      [.aci_gatt_update_char_value w.hService w.hClientREAD 0 16
          (if w.counter % 2 = 0 then
            [0x00, 0x11, 0x22, 0x33, 0x44, 0x55, 0x66, 0x77, 0x88, 0x99,
             0xAA, 0xBB, 0xCC, 0xDD, 0xEE, 0xFF]
          else
            [0xFF, 0xEE, 0xDD, 0xCC, 0xBB, 0xAA, 0x99, 0x88, 0x77, 0x66,
             0x55, 0x44, 0x33, 0x22, 0x11, 0x00]),
       .aci_gatt_update_char_value w.hService w.hClientIndicate 0 16
          (if w.counter % 2 = 0 then
            [0x00, 0x11, 0x22, 0x33, 0x44, 0x55, 0x66, 0x77, 0x88, 0x99,
             0xAA, 0xBB, 0xCC, 0xDD, 0xEE, 0xFF]
          else
            [0xFF, 0xEE, 0xDD, 0xCC, 0xBB, 0xAA, 0x99, 0x88, 0x77, 0x66,
             0x55, 0x44, 0x33, 0x22, 0x11, 0x00])] := by
  unfold TestUpdateCharacteristic
  by_cases h : w.counter % 2 = 0 <;> simp [h, emit]

theorem TestUpdateCharacteristic_frame (w : World) :
    (TestUpdateCharacteristic w).hService = w.hService ∧
    (TestUpdateCharacteristic w).hClientREAD = w.hClientREAD ∧
    (TestUpdateCharacteristic w).hClientIndicate = w.hClientIndicate ∧
    (TestUpdateCharacteristic w).counter = (w.counter + 1) % 4294967296 := by
  unfold TestUpdateCharacteristic
  by_cases h : w.counter % 2 = 0 <;> simp [h, emit]

theorem TestUpdateCharacteristic_iterate (w : World) (h0 : w.counter = 0) (k : Nat) :
    (Nat.iterate TestUpdateCharacteristic k w).hService = w.hService ∧
    (Nat.iterate TestUpdateCharacteristic k w).hClientREAD = w.hClientREAD ∧
    (Nat.iterate TestUpdateCharacteristic k w).hClientIndicate = w.hClientIndicate ∧
    (Nat.iterate TestUpdateCharacteristic k w).counter = k % 4294967296 := by
  induction k with
  | zero => simp [h0]
  | succ n ih =>
    rw [Function.iterate_succ_apply']
    obtain ⟨f1, f2, f3, f4⟩ :=
      TestUpdateCharacteristic_frame (Nat.iterate TestUpdateCharacteristic n w)
    obtain ⟨i1, i2, i3, i4⟩ := ih
    refine ⟨f1.trans i1, f2.trans i2, f3.trans i3, ?_⟩
    rw [f4, i4]
    omega

/-- C9: alternating refresh.  Starting from `counter = 0`, for every `N` and every
0-indexed call `k < N`, call `k` of `TestUpdateCharacteristic` issues exactly two
attribute updates, offset 0 and length 16, first to `hClientREAD` and then to
`hClientIndicate`, both with the ascending pattern `00 11 .. FF` when `k` is even
and with its reverse when `k` is odd; the 32-bit wrap of the counter does not
disturb this. -/
theorem C9_alternating_refresh (w : World) (h0 : w.counter = 0) (N k : Nat) (hk : k < N) :
    (TestUpdateCharacteristic (Nat.iterate TestUpdateCharacteristic k w)).calls =
      (Nat.iterate TestUpdateCharacteristic k w).calls ++
        [.aci_gatt_update_char_value w.hService w.hClientREAD 0 16
            (if k % 2 = 0 then
              [0x00, 0x11, 0x22, 0x33, 0x44, 0x55, 0x66, 0x77, 0x88, 0x99,
               0xAA, 0xBB, 0xCC, 0xDD, 0xEE, 0xFF]
            else
              List.reverse [0x00, 0x11, 0x22, 0x33, 0x44, 0x55, 0x66, 0x77, 0x88, 0x99,
               0xAA, 0xBB, 0xCC, 0xDD, 0xEE, 0xFF]),
         .aci_gatt_update_char_value w.hService w.hClientIndicate 0 16
            (if k % 2 = 0 then
              [0x00, 0x11, 0x22, 0x33, 0x44, 0x55, 0x66, 0x77, 0x88, 0x99,
               0xAA, 0xBB, 0xCC, 0xDD, 0xEE, 0xFF]
            else
              List.reverse [0x00, 0x11, 0x22, 0x33, 0x44, 0x55, 0x66, 0x77, 0x88, 0x99,
               0xAA, 0xBB, 0xCC, 0xDD, 0xEE, 0xFF])] ∧
    List.reverse [0x00, 0x11, 0x22, 0x33, 0x44, 0x55, 0x66, 0x77, 0x88, 0x99,
        0xAA, 0xBB, 0xCC, 0xDD, 0xEE, 0xFF] =
      [0xFF, 0xEE, 0xDD, 0xCC, 0xBB, 0xAA, 0x99, 0x88, 0x77, 0x66,
        0x55, 0x44, 0x33, 0x22, 0x11, 0x00] := by
  obtain ⟨i1, i2, i3, i4⟩ := TestUpdateCharacteristic_iterate w h0 k
  have hpar : (k % 4294967296) % 2 = k % 2 := by omega
  refine ⟨?_, by decide⟩
  rw [TestUpdateCharacteristic_calls, i1, i2, i3, i4, hpar]
  by_cases hk2 : k % 2 = 0 <;> simp [hk2]

theorem C9_alternating_refresh_witness :
    sampleWorld.counter = 0 ∧ 3 < 4 ∧
    (TestUpdateCharacteristic (Nat.iterate TestUpdateCharacteristic 3 sampleWorld)).calls =
      (Nat.iterate TestUpdateCharacteristic 3 sampleWorld).calls ++
        [.aci_gatt_update_char_value 12 21 0 16
            [0xFF, 0xEE, 0xDD, 0xCC, 0xBB, 0xAA, 0x99, 0x88, 0x77, 0x66,
             0x55, 0x44, 0x33, 0x22, 0x11, 0x00],
         .aci_gatt_update_char_value 12 13 0 16
            [0xFF, 0xEE, 0xDD, 0xCC, 0xBB, 0xAA, 0x99, 0x88, 0x77, 0x66,
             0x55, 0x44, 0x33, 0x22, 0x11, 0x00]] :=
  ⟨by decide, by decide, (C9_alternating_refresh sampleWorld (by decide) 4 3 (by decide)).1⟩

/-! ## Discoverability payload -/

/-- C10: on every invocation of `BlueNRG_MakeDeviceDiscoverable`, whether it returns
or halts, exactly one scan-response buffer is handed to the stack; it is passed
with length 18, is 18 bytes long, starts `0x11, 0x06`, and its bytes 2..17 are,
in order, the `service_uuid` array, which is the 16-byte UUID that
`GAP_Peripheral_ConfigService` registers with `aci_gatt_add_service`. -/
theorem C10_scan_response_payload (K : StackDefs) (ret : Nat) (w : World)
    (R : ConfigReplies) (w0 : World) :
    ((BlueNRG_MakeDeviceDiscoverable K ret w).world.calls.drop w.calls.length).filterMap
        scanResponseData = [(18, uuidscanresponse)] ∧
    uuidscanresponse.length = 18 ∧
    uuidscanresponse.get? 0 = some 0x11 ∧
    uuidscanresponse.get? 1 = some 0x06 ∧
    uuidscanresponse.drop 2 = service_uuid ∧
    service_uuid.length = 16 ∧
    ((GAP_Peripheral_ConfigService K R w0).calls.drop w0.calls.length).filterMap
        registeredServiceUUID = [service_uuid] := by
  refine ⟨?_, by decide, by decide, by decide, by decide, by decide, ?_⟩
  · unfold BlueNRG_MakeDeviceDiscoverable
    by_cases h : ret = K.BLE_STATUS_SUCCESS <;>
      simp [h, Run.world, emit, reportError, scanResponseData]
  · simp [GAP_Peripheral_ConfigService, registeredServiceUUID, BLUENRG_memcpy, service_uuid]

/-! ## Service UUID and local name -/

/-- C11: the 16 bytes registered by `GAP_Peripheral_ConfigService` as the service
UUID, and bytes 2..17 of the scan-response payload, are the little-endian
encoding of `a898328b-03f9-4d63-b11d-51505ae1ce5d`: reversed they read
`A8 98 32 8B 03 F9 4D 63 B1 1D 51 50 5A E1 CE 5D`. -/
theorem C11_service_uuid_little_endian (K : StackDefs) (R : ConfigReplies) (w0 : World)
    (ret : Nat) (w : World) :
    (((GAP_Peripheral_ConfigService K R w0).calls.drop w0.calls.length).filterMap
        registeredServiceUUID).map List.reverse =
      [[0xA8, 0x98, 0x32, 0x8B, 0x03, 0xF9, 0x4D, 0x63,
        0xB1, 0x1D, 0x51, 0x50, 0x5A, 0xE1, 0xCE, 0x5D]] ∧
    (((BlueNRG_MakeDeviceDiscoverable K ret w).world.calls.drop w.calls.length).filterMap
        scanResponseData).map (fun p => (p.2.drop 2).reverse) =
      [[0xA8, 0x98, 0x32, 0x8B, 0x03, 0xF9, 0x4D, 0x63,
        0xB1, 0x1D, 0x51, 0x50, 0x5A, 0xE1, 0xCE, 0x5D]] ∧
    service_uuid.reverse =
      [0xA8, 0x98, 0x32, 0x8B, 0x03, 0xF9, 0x4D, 0x63,
       0xB1, 0x1D, 0x51, 0x50, 0x5A, 0xE1, 0xCE, 0x5D] := by
  refine ⟨?_, ?_, by decide⟩
  · simp [GAP_Peripheral_ConfigService, registeredServiceUUID, BLUENRG_memcpy, service_uuid]
  · unfold BlueNRG_MakeDeviceDiscoverable
    by_cases h : ret = K.BLE_STATUS_SUCCESS <;>
      simp [h, Run.world, emit, reportError, scanResponseData, uuidscanresponse]

/-- C12 (as stated, refuted): the local name handed to `aci_gap_set_discoverable` is
not the AD type byte followed by the 9 bytes of "EywearBLE" with length 10: the
source spells "EyewearBLE" and passes length 11. -/
theorem C12_local_name_counterexample :
    ((BlueNRG_MakeDeviceDiscoverable sampleDefs 0 bootWorld).world.calls.filterMap
        localNameArg) =
      [(11, [0x09, 0x45, 0x79, 0x65, 0x77, 0x65, 0x61, 0x72, 0x42, 0x4C, 0x45])] ∧
    ((BlueNRG_MakeDeviceDiscoverable sampleDefs 0 bootWorld).world.calls.filterMap
        localNameArg) ≠
      [(10, sampleDefs.AD_TYPE_COMPLETE_LOCAL_NAME :: cstr "EywearBLE")] := by
  decide

/-- C12 (amended): the local name handed to `aci_gap_set_discoverable` is the
complete-local-name AD type byte followed by exactly the 10 ASCII bytes of
"EyewearBLE", and the length passed equals the payload length, 1 + 10 = 11. -/
theorem C12_local_name_payload (K : StackDefs) (ret : Nat) (w : World) :
    ((BlueNRG_MakeDeviceDiscoverable K ret w).world.calls.drop w.calls.length).filterMap
        localNameArg =
      [(11, K.AD_TYPE_COMPLETE_LOCAL_NAME :: cstr "EyewearBLE")] ∧
    (K.AD_TYPE_COMPLETE_LOCAL_NAME :: cstr "EyewearBLE").length = 11 ∧
    (cstr "EyewearBLE").length = 10 := by
  refine ⟨?_, by rw [List.length_cons]; decide, by decide⟩
  have hname : local_name K = K.AD_TYPE_COMPLETE_LOCAL_NAME :: cstr "EyewearBLE" := by
    unfold local_name
    congr 1
  unfold BlueNRG_MakeDeviceDiscoverable
  by_cases h : ret = K.BLE_STATUS_SUCCESS <;>
    simp [h, Run.world, emit, reportError, localNameArg, hname] <;> decide

/-- C13: `BlueNRG_MakeDeviceDiscoverable` halts exactly when `aci_gap_set_discoverable`
returns a status other than `BLE_STATUS_SUCCESS`, and then the context, status
included, is as before; on success it returns with `STATE_AWAITING_CONNECTION`,
whatever the status was, and every other context field unchanged. -/
theorem C13_discoverable_halts_iff (K : StackDefs) (ret : Nat) (w : World) :
    ((BlueNRG_MakeDeviceDiscoverable K ret w).isHalted = true ↔
      ret ≠ K.BLE_STATUS_SUCCESS) ∧
    (match BlueNRG_MakeDeviceDiscoverable K ret w with
     | .halted w1 => ret ≠ K.BLE_STATUS_SUCCESS ∧ w1.Conn_Details = w.Conn_Details
     | .returned w1 => ret = K.BLE_STATUS_SUCCESS ∧ w1.Conn_Details =
        { w.Conn_Details with ConnectionStatus := STATE_AWAITING_CONNECTION }) := by
  unfold BlueNRG_MakeDeviceDiscoverable
  by_cases h : ret = K.BLE_STATUS_SUCCESS <;> simp [h, Run.isHalted]

/-! ## Start-up failures -/

/-- Start-up halts exactly when the power-level call or the GATT initialisation
fails. -/
theorem BlueNRG_Init_isHalted (K : StackDefs) (E : InitReplies) (boot : World) :
    (BlueNRG_Init K E boot).isHalted = true ↔
      (E.tx_power_ret ≠ K.BLE_STATUS_SUCCESS ∨ E.gatt_init_ret ≠ K.BLE_STATUS_SUCCESS) := by
  unfold BlueNRG_Init
  by_cases h1 : E.tx_power_ret = K.BLE_STATUS_SUCCESS <;>
    by_cases h2 : E.gatt_init_ret = K.BLE_STATUS_SUCCESS <;>
    simp [h1, h2, Run.isHalted]

/-- C14 (as stated, refuted): with `aci_gatt_add_service` and every other
registration call answering the error status `0x47`, start-up does not halt:
`BlueNRG_Init` returns, in `STATE_NOT_CONNECTED`, after issuing all nine
registration calls. -/
theorem C14_registration_failure_counterexample :
    registrationFailed sampleDefs
      { sampleReplies.config with
        add_service_ret := 0x47, add_char_ret_1 := 0x47, add_char_ret_2 := 0x47,
        add_char_ret_3 := 0x47, add_char_ret_4 := 0x47, add_char_desc_ret_1 := 0x47,
        add_char_desc_ret_2 := 0x47, add_char_desc_ret_3 := 0x47,
        add_char_desc_ret_4 := 0x47 } ∧
    (BlueNRG_Init sampleDefs
      { sampleReplies with config :=
        { sampleReplies.config with
          add_service_ret := 0x47, add_char_ret_1 := 0x47, add_char_ret_2 := 0x47,
          add_char_ret_3 := 0x47, add_char_ret_4 := 0x47, add_char_desc_ret_1 := 0x47,
          add_char_desc_ret_2 := 0x47, add_char_desc_ret_3 := 0x47,
          add_char_desc_ret_4 := 0x47 } } bootWorld).isHalted = false ∧
    (BlueNRG_Init sampleDefs
      { sampleReplies with config :=
        { sampleReplies.config with
          add_service_ret := 0x47, add_char_ret_1 := 0x47, add_char_ret_2 := 0x47,
          add_char_ret_3 := 0x47, add_char_ret_4 := 0x47, add_char_desc_ret_1 := 0x47,
          add_char_desc_ret_2 := 0x47, add_char_desc_ret_3 := 0x47,
          add_char_desc_ret_4 := 0x47 } } bootWorld) =
      BlueNRG_Init sampleDefs sampleReplies bootWorld := by
  decide

/-- C14 (amended): the status returned by a registration call is not examined.  When
some registration call fails, `GAP_Peripheral_ConfigService` still returns and
`BlueNRG_Init` behaves exactly as if every registration had succeeded; start-up
halts only when `aci_hal_set_tx_power_level` or `aci_gatt_init` fails. -/
theorem C14_registration_status_ignored (K : StackDefs) (E : InitReplies) (boot : World)
    (hfail : registrationFailed K E.config) :
    BlueNRG_Init K E boot = BlueNRG_Init K (withRegistrationSuccess K E) boot ∧
    GAP_Peripheral_ConfigService K E.config boot =
      GAP_Peripheral_ConfigService K (withRegistrationSuccess K E).config boot ∧
    ((BlueNRG_Init K E boot).isHalted = true ↔
      (E.tx_power_ret ≠ K.BLE_STATUS_SUCCESS ∨ E.gatt_init_ret ≠ K.BLE_STATUS_SUCCESS)) :=
  ⟨rfl, rfl, BlueNRG_Init_isHalted K E boot⟩

theorem C14_registration_status_ignored_witness :
    registrationFailed sampleDefs
      { sampleReplies.config with add_char_ret_3 := 0x47 } ∧
    (BlueNRG_Init sampleDefs
        { sampleReplies with config := { sampleReplies.config with add_char_ret_3 := 0x47 } }
        bootWorld).isHalted = false :=
  ⟨by decide,
    by
      have h := (C14_registration_status_ignored sampleDefs
        { sampleReplies with config := { sampleReplies.config with add_char_ret_3 := 0x47 } }
        bootWorld (by decide)).2.2
      cases hh : (BlueNRG_Init sampleDefs
        { sampleReplies with config := { sampleReplies.config with add_char_ret_3 := 0x47 } }
        bootWorld).isHalted
      · rfl
      · exact absurd (h.mp hh) (by decide)⟩

/-! ## Event dispatcher -/

theorem dispatchLoop_nil (code : Nat) (data : List Nat) (w : World) :
    dispatchLoop [] code data w = w := rfl

theorem dispatchLoop_cons (e : hci_events_table_type) (t : List hci_events_table_type)
    (code : Nat) (data : List Nat) (w : World) :
    dispatchLoop (e :: t) code data w =
      dispatchLoop t code data (if code = e.evt_code then e.process data w else w) := rfl

theorem dispatchLoop_eq_runHandlers (table : List hci_events_table_type) (code : Nat)
    (data : List Nat) (w : World) :
    dispatchLoop table code data w = runHandlers (matchingEntries table code) data w := by
  induction table generalizing w with
  | nil => rfl
  | cons e t ih =>
    rw [dispatchLoop_cons, ih]
    by_cases h : code = e.evt_code
    · simp [matchingEntries, runHandlers, List.filter_cons, h]
    · simp [matchingEntries, runHandlers, List.filter_cons, h]

theorem matchingEntries_eq_nil (table : List hci_events_table_type) (code : Nat)
    (h : ∀ e ∈ table, e.evt_code ≠ code) : matchingEntries table code = [] := by
  unfold matchingEntries
  rw [List.filter_eq_nil_iff]
  intro e he
  simpa using fun hc : code = e.evt_code => h e he hc.symm

theorem dispatchLoop_no_match (table : List hci_events_table_type) (code : Nat)
    (data : List Nat) (w : World) (h : ∀ e ∈ table, e.evt_code ≠ code) :
    dispatchLoop table code data w = w := by
  rw [dispatchLoop_eq_runHandlers, matchingEntries_eq_nil table code h]
  rfl

theorem matchingEntries_length_le_one (table : List hci_events_table_type) (code : Nat)
    (hnd : (table.map (fun e => e.evt_code)).Nodup) :
    (matchingEntries table code).length ≤ 1 := by
  induction table with
  | nil => simp [matchingEntries]
  | cons e t ih =>
    rw [List.map_cons, List.nodup_cons] at hnd
    by_cases h : code = e.evt_code
    · have hno : ∀ e1 ∈ t, e1.evt_code ≠ code := by
        intro e1 he1 hc
        apply hnd.1
        rw [← h, ← hc]
        exact List.mem_map_of_mem (fun e => e.evt_code) he1
      have hnil := matchingEntries_eq_nil t code hno
      have hf : matchingEntries (e :: t) code = e :: matchingEntries t code := by
        simp [matchingEntries, List.filter_cons, h]
      rw [hf, hnil]
      simp
    · have hf : matchingEntries (e :: t) code = matchingEntries t code := by
        simp [matchingEntries, List.filter_cons, h]
      rw [hf]
      exact ih hnd.2

theorem dispatchLoop_eq_spec (table : List hci_events_table_type) (code : Nat)
    (data : List Nat) (w : World) (hnd : (table.map (fun e => e.evt_code)).Nodup) :
    dispatchLoop table code data w = spec_singleDispatch table code data w := by
  induction table generalizing w with
  | nil => rfl
  | cons e t ih =>
    rw [List.map_cons, List.nodup_cons] at hnd
    rw [dispatchLoop_cons]
    by_cases h : code = e.evt_code
    · have hno : ∀ e1 ∈ t, e1.evt_code ≠ code := by
        intro e1 he1 hc
        apply hnd.1
        rw [← h, ← hc]
        exact List.mem_map_of_mem (fun e => e.evt_code) he1
      rw [dispatchLoop_no_match t code data _ hno]
      simp [spec_singleDispatch, List.find?_cons, h]
    · rw [ih _ hnd.2]
      simp [spec_singleDispatch, List.find?_cons, h]

theorem APP_UserEvtRx_meta (H : HciDefs) (pData : List Nat) (w : World)
    (ht : H.pckt_type pData = H.HCI_EVENT_PKT)
    (hm : H.event_evt (H.pckt_data pData) = H.EVT_LE_META_EVENT) :
    APP_UserEvtRx H pData w =
      dispatchLoop H.hci_le_meta_events_table
        (H.meta_subevent (H.event_data (H.pckt_data pData)))
        (H.meta_data (H.event_data (H.pckt_data pData))) w := by
  simp only [APP_UserEvtRx, if_pos ht, if_pos hm]

theorem APP_UserEvtRx_vendor (H : HciDefs) (pData : List Nat) (w : World)
    (ht : H.pckt_type pData = H.HCI_EVENT_PKT)
    (hm : H.event_evt (H.pckt_data pData) ≠ H.EVT_LE_META_EVENT)
    (hv : H.event_evt (H.pckt_data pData) = H.EVT_VENDOR) :
    APP_UserEvtRx H pData w =
      dispatchLoop H.hci_vendor_specific_events_table
        (H.blue_ecode (H.event_data (H.pckt_data pData)))
        (H.blue_data (H.event_data (H.pckt_data pData))) w := by
  simp only [APP_UserEvtRx, if_pos ht, if_neg hm, if_pos hv]

theorem APP_UserEvtRx_generic (H : HciDefs) (pData : List Nat) (w : World)
    (ht : H.pckt_type pData = H.HCI_EVENT_PKT)
    (hm : H.event_evt (H.pckt_data pData) ≠ H.EVT_LE_META_EVENT)
    (hv : H.event_evt (H.pckt_data pData) ≠ H.EVT_VENDOR) :
    APP_UserEvtRx H pData w =
      dispatchLoop H.hci_events_table (H.event_evt (H.pckt_data pData))
        (H.event_data (H.pckt_data pData)) w := by
  simp only [APP_UserEvtRx, if_pos ht, if_neg hm, if_neg hv]

/-- C15: an HCI event packet is classified by its outer event code into exactly one
family.  `EVT_LE_META_EVENT` is looked up by subevent code in the LE meta table
only, `EVT_VENDOR` by vendor event code in the vendor table only, any other code
in the generic table only: the outcome is that of calling the matching entries
of that table and does not depend on the other two tables.  When no entry of
the selected table matches, no routine is called and the state is unchanged. -/
theorem C15_event_classification (H : HciDefs) (pData : List Nat) (w : World)
    (ht : H.pckt_type pData = H.HCI_EVENT_PKT) :
    (H.event_evt (H.pckt_data pData) = H.EVT_LE_META_EVENT →
      APP_UserEvtRx H pData w =
        runHandlers
          (matchingEntries H.hci_le_meta_events_table
            (H.meta_subevent (H.event_data (H.pckt_data pData))))
          (H.meta_data (H.event_data (H.pckt_data pData))) w ∧
      (∀ V G, APP_UserEvtRx
          { H with hci_vendor_specific_events_table := V, hci_events_table := G } pData w =
        APP_UserEvtRx H pData w) ∧
      ((∀ e ∈ H.hci_le_meta_events_table,
          e.evt_code ≠ H.meta_subevent (H.event_data (H.pckt_data pData))) →
        APP_UserEvtRx H pData w = w)) ∧
    (H.event_evt (H.pckt_data pData) ≠ H.EVT_LE_META_EVENT →
      H.event_evt (H.pckt_data pData) = H.EVT_VENDOR →
      APP_UserEvtRx H pData w =
        runHandlers
          (matchingEntries H.hci_vendor_specific_events_table
            (H.blue_ecode (H.event_data (H.pckt_data pData))))
          (H.blue_data (H.event_data (H.pckt_data pData))) w ∧
      (∀ M G, APP_UserEvtRx
          { H with hci_le_meta_events_table := M, hci_events_table := G } pData w =
        APP_UserEvtRx H pData w) ∧
      ((∀ e ∈ H.hci_vendor_specific_events_table,
          e.evt_code ≠ H.blue_ecode (H.event_data (H.pckt_data pData))) →
        APP_UserEvtRx H pData w = w)) ∧
    (H.event_evt (H.pckt_data pData) ≠ H.EVT_LE_META_EVENT →
      H.event_evt (H.pckt_data pData) ≠ H.EVT_VENDOR →
      APP_UserEvtRx H pData w =
        runHandlers
          (matchingEntries H.hci_events_table (H.event_evt (H.pckt_data pData)))
          (H.event_data (H.pckt_data pData)) w ∧
      (∀ M V, APP_UserEvtRx
          { H with hci_le_meta_events_table := M, hci_vendor_specific_events_table := V }
          pData w =
        APP_UserEvtRx H pData w) ∧
      ((∀ e ∈ H.hci_events_table, e.evt_code ≠ H.event_evt (H.pckt_data pData)) →
        APP_UserEvtRx H pData w = w)) := by
  refine ⟨fun hm => ?_, fun hm hv => ?_, fun hm hv => ?_⟩
  · refine ⟨?_, fun V G => ?_, fun hno => ?_⟩
    · rw [APP_UserEvtRx_meta H pData w ht hm, dispatchLoop_eq_runHandlers]
    · exact (APP_UserEvtRx_meta
        { H with hci_vendor_specific_events_table := V, hci_events_table := G }
        pData w ht hm).trans
        (APP_UserEvtRx_meta H pData w ht hm).symm
    · rw [APP_UserEvtRx_meta H pData w ht hm, dispatchLoop_no_match _ _ _ _ hno]
  · refine ⟨?_, fun M G => ?_, fun hno => ?_⟩
    · rw [APP_UserEvtRx_vendor H pData w ht hm hv, dispatchLoop_eq_runHandlers]
    · exact (APP_UserEvtRx_vendor
        { H with hci_le_meta_events_table := M, hci_events_table := G }
        pData w ht hm hv).trans
        (APP_UserEvtRx_vendor H pData w ht hm hv).symm
    · rw [APP_UserEvtRx_vendor H pData w ht hm hv, dispatchLoop_no_match _ _ _ _ hno]
  · refine ⟨?_, fun M V => ?_, fun hno => ?_⟩
    · rw [APP_UserEvtRx_generic H pData w ht hm hv, dispatchLoop_eq_runHandlers]
    · exact (APP_UserEvtRx_generic
        { H with hci_le_meta_events_table := M, hci_vendor_specific_events_table := V }
        pData w ht hm hv).trans
        (APP_UserEvtRx_generic H pData w ht hm hv).symm
    · rw [APP_UserEvtRx_generic H pData w ht hm hv, dispatchLoop_no_match _ _ _ _ hno]

theorem C15_event_classification_witness :
    sampleHci.pckt_type [0x04, 0x05, 0x04, 0x00, 0x01, 0x08, 0x13] = sampleHci.HCI_EVENT_PKT ∧
    APP_UserEvtRx sampleHci [0x04, 0x05, 0x04, 0x00, 0x01, 0x08, 0x13] sampleWorld =
      hci_disconnection_complete_event 0x00 0x0801 0x13 sampleWorld ∧
    APP_UserEvtRx sampleHci [0x04, 0x0E, 0x01, 0x00] sampleWorld = sampleWorld :=
  ⟨by decide,
    ((C15_event_classification sampleHci [0x04, 0x05, 0x04, 0x00, 0x01, 0x08, 0x13]
      sampleWorld (by decide)).2.2 (by decide) (by decide)).1.trans (by decide),
    ((C15_event_classification sampleHci [0x04, 0x0E, 0x01, 0x00]
      sampleWorld (by decide)).2.2 (by decide) (by decide)).2.2 (by decide)⟩

/-- C16 (as stated, refuted): with a generic table that lists code `0x05` twice, a
disconnection-complete packet makes `APP_UserEvtRx` call both entries (the
second one issues two attribute updates), where single dispatch would call the
first only. -/
theorem C16_single_dispatch_counterexample :
    (matchingEntries duplicateHci.hci_events_table 0x05).length = 2 ∧
    (APP_UserEvtRx duplicateHci [0x04, 0x05, 0x04, 0x00, 0x01, 0x08, 0x13]
      sampleWorld).calls.length = 2 ∧
    (spec_APP_UserEvtRx duplicateHci [0x04, 0x05, 0x04, 0x00, 0x01, 0x08, 0x13]
      sampleWorld).calls.length = 0 ∧
    APP_UserEvtRx duplicateHci [0x04, 0x05, 0x04, 0x00, 0x01, 0x08, 0x13] sampleWorld ≠
      spec_APP_UserEvtRx duplicateHci [0x04, 0x05, 0x04, 0x00, 0x01, 0x08, 0x13]
        sampleWorld := by
  decide

/-- C16 (amended): `APP_UserEvtRx` calls every entry of the selected table whose code
matches, in table order.  When the codes of each table are pairwise distinct, at
most one entry matches and `APP_UserEvtRx` is single dispatch: the first
matching entry, and only that one, is called with the event payload. -/
theorem C16_dispatch_every_match (H : HciDefs) (pData : List Nat) (w : World)
    (hm : (H.hci_le_meta_events_table.map (fun e => e.evt_code)).Nodup)
    (hv : (H.hci_vendor_specific_events_table.map (fun e => e.evt_code)).Nodup)
    (hg : (H.hci_events_table.map (fun e => e.evt_code)).Nodup) :
    APP_UserEvtRx H pData w = spec_APP_UserEvtRx H pData w ∧
    (∀ code, (matchingEntries H.hci_le_meta_events_table code).length ≤ 1 ∧
      (matchingEntries H.hci_vendor_specific_events_table code).length ≤ 1 ∧
      (matchingEntries H.hci_events_table code).length ≤ 1) ∧
    (∀ (table : List hci_events_table_type) (code : Nat) (data : List Nat) (w1 : World),
      dispatchLoop table code data w1 =
        runHandlers (matchingEntries table code) data w1) := by
  refine ⟨?_, fun code => ⟨matchingEntries_length_le_one _ code hm,
    matchingEntries_length_le_one _ code hv, matchingEntries_length_le_one _ code hg⟩,
    dispatchLoop_eq_runHandlers⟩
  unfold APP_UserEvtRx spec_APP_UserEvtRx
  simp only [dispatchLoop_eq_spec _ _ _ _ hm, dispatchLoop_eq_spec _ _ _ _ hv,
    dispatchLoop_eq_spec _ _ _ _ hg]

theorem C16_dispatch_every_match_witness :
    APP_UserEvtRx sampleHci [0x04, 0x05, 0x04, 0x00, 0x01, 0x08, 0x13] sampleWorld =
      spec_APP_UserEvtRx sampleHci [0x04, 0x05, 0x04, 0x00, 0x01, 0x08, 0x13] sampleWorld :=
  (C16_dispatch_every_match sampleHci [0x04, 0x05, 0x04, 0x00, 0x01, 0x08, 0x13] sampleWorld
    (by decide) (by decide) (by decide)).1

/-! ## Device address and discovery time -/

theorem length_eight_cases (r : List Nat) (h : r.length = 8) :
    ∃ r0 r1 r2 r3 r4 r5 r6 r7, r = [r0, r1, r2, r3, r4, r5, r6, r7] := by
  rcases r with _ | ⟨a, _ | ⟨b, _ | ⟨c, _ | ⟨d, _ | ⟨e, _ | ⟨f, _ | ⟨g, _ | ⟨i, _ | ⟨j, r⟩⟩⟩⟩⟩⟩⟩⟩⟩ <;>
    simp at h ⊢

theorem Setup_DeviceAddress_discovery_time (K : StackDefs) (rand_ret : Nat)
    (random_number : List Nat) (write_config_ret : Nat) (w : World) :
    (Setup_DeviceAddress K rand_ret random_number write_config_ret w).discovery_time =
      discoveryLoop random_number 3000 := by
  unfold Setup_DeviceAddress printAddress
  by_cases h1 : rand_ret = K.BLE_STATUS_SUCCESS <;>
    by_cases h2 : write_config_ret = K.BLE_STATUS_SUCCESS <;>
    simp [h1, h2, emit]

/-- C17: for every 8-byte random value, `Setup_DeviceAddress` leaves `discovery_time`
equal to 3000 plus the sum of `2 * r[i]` over the eight bytes, with no 16-bit
wrap: the value lies between 3000 and 7080. -/
theorem C17_discovery_time (K : StackDefs) (rand_ret : Nat) (random_number : List Nat)
    (write_config_ret : Nat) (w : World)
    (hlen : random_number.length = 8) (hb : ∀ b ∈ random_number, b < 256) :
    (Setup_DeviceAddress K rand_ret random_number write_config_ret w).discovery_time =
      3000 + (random_number.map (fun b => 2 * b)).sum ∧
    3000 ≤ (Setup_DeviceAddress K rand_ret random_number write_config_ret w).discovery_time ∧
    (Setup_DeviceAddress K rand_ret random_number write_config_ret w).discovery_time ≤ 7080 := by
  rw [Setup_DeviceAddress_discovery_time]
  obtain ⟨r0, r1, r2, r3, r4, r5, r6, r7, rfl⟩ := length_eight_cases random_number hlen
  have h0 := hb r0 (by simp)
  have h1 := hb r1 (by simp)
  have h2 := hb r2 (by simp)
  have h3 := hb r3 (by simp)
  have h4 := hb r4 (by simp)
  have h5 := hb r5 (by simp)
  have h6 := hb r6 (by simp)
  have h7 := hb r7 (by simp)
  have hr : List.range 8 = [0, 1, 2, 3, 4, 5, 6, 7] := by decide
  simp only [discoveryLoop, hr, List.foldl_cons, List.foldl_nil, List.getD_cons_zero,
    List.getD_cons_succ, List.map_cons, List.map_nil, List.sum_cons, List.sum_nil]
  omega

theorem C17_discovery_time_witness :
    [0xFF, 0xFF, 0xFF, 0xFF, 0xFF, 0xFF, 0xFF, 0xFF].length = 8 ∧
    (Setup_DeviceAddress sampleDefs 0 [0xFF, 0xFF, 0xFF, 0xFF, 0xFF, 0xFF, 0xFF, 0xFF] 0
      bootWorld).discovery_time = 7080 :=
  ⟨by decide,
    (C17_discovery_time sampleDefs 0 [0xFF, 0xFF, 0xFF, 0xFF, 0xFF, 0xFF, 0xFF, 0xFF] 0
      bootWorld (by decide) (by decide)).1.trans (by decide)⟩

/-- C18: for every 8-byte random value `r`, the one public address that
`Setup_DeviceAddress` writes to the stack configuration is
`r[0], r[3], r[6], 0xE1, 0x80, 0x02`: the upper three bytes are the fixed prefix,
the lower three come from the random value. -/
theorem C18_public_address (K : StackDefs) (rand_ret : Nat) (random_number : List Nat)
    (write_config_ret : Nat) (w : World)
    (hlen : random_number.length = 8) (hb : ∀ b ∈ random_number, b < 256) :
    ((Setup_DeviceAddress K rand_ret random_number write_config_ret w).calls.drop
        w.calls.length).filterMap configDataWritten =
      [(K.CONFIG_DATA_PUBADDR_OFFSET, K.CONFIG_DATA_PUBADDR_LEN,
        [random_number.getD 0 0, random_number.getD 3 0, random_number.getD 6 0,
         0xE1, 0x80, 0x02])] := by
  obtain ⟨r0, r1, r2, r3, r4, r5, r6, r7, rfl⟩ := length_eight_cases random_number hlen
  have h0 : r0 % 256 = r0 := Nat.mod_eq_of_lt (hb r0 (by simp))
  have h3 : r3 % 256 = r3 := Nat.mod_eq_of_lt (hb r3 (by simp))
  have h6 : r6 % 256 = r6 := Nat.mod_eq_of_lt (hb r6 (by simp))
  unfold Setup_DeviceAddress printAddress
  by_cases c1 : rand_ret = K.BLE_STATUS_SUCCESS <;>
    by_cases c2 : write_config_ret = K.BLE_STATUS_SUCCESS <;>
    simp [c1, c2, emit, configDataWritten, bdaddrOf, h0, h3, h6]

theorem C18_public_address_witness :
    [0x10, 0x21, 0x32, 0x43, 0x54, 0x65, 0x76, 0x87].length = 8 ∧
    ((Setup_DeviceAddress sampleDefs 0 [0x10, 0x21, 0x32, 0x43, 0x54, 0x65, 0x76, 0x87] 0
        bootWorld).calls.drop bootWorld.calls.length).filterMap configDataWritten =
      [(0, 6, [0x10, 0x43, 0x76, 0xE1, 0x80, 0x02])] :=
  ⟨by decide,
    C18_public_address sampleDefs 0 [0x10, 0x21, 0x32, 0x43, 0x54, 0x65, 0x76, 0x87] 0
      bootWorld (by decide) (by decide)⟩

/-! ## Attribute table -/

/-- C19: `GAP_Peripheral_ConfigService` registers exactly four characteristics, all
under the handle written back by `aci_gatt_add_service`, in the order indicate,
notify, read, write (`CHAR_PROP_WRITE | CHAR_PROP_WRITE_WITHOUT_RESP`); each has a
128-bit UUID, maximum length 20, constant value length and `ATTR_PERMISSION_NONE`;
the fourth is registered with `GATT_NOTIFY_ATTRIBUTE_WRITE`, the first three with
`GATT_DONT_NOTIFY_EVENTS`; the four UUIDs are pairwise distinct. -/
theorem C19_characteristic_table (K : StackDefs) (R : ConfigReplies) (w : World) :
    ((GAP_Peripheral_ConfigService K R w).calls.drop w.calls.length).filterMap
        registeredChar =
      [{ Service_Handle := R.hService, Char_UUID_Type := K.UUID_TYPE_128,
         Char_UUID := char1_uuid, Char_Value_Length := 20,
         Char_Properties := K.CHAR_PROP_INDICATE,
         Security_Permissions := K.ATTR_PERMISSION_NONE,
         GATT_Evt_Mask := K.GATT_DONT_NOTIFY_EVENTS, Enc_Key_Size := 0x07,
         Is_Variable := K.CHAR_VALUE_LEN_CONSTANT },
       { Service_Handle := R.hService, Char_UUID_Type := K.UUID_TYPE_128,
         Char_UUID := char2_uuid, Char_Value_Length := 20,
         Char_Properties := K.CHAR_PROP_NOTIFY,
         Security_Permissions := K.ATTR_PERMISSION_NONE,
         GATT_Evt_Mask := K.GATT_DONT_NOTIFY_EVENTS, Enc_Key_Size := 0x07,
         Is_Variable := K.CHAR_VALUE_LEN_CONSTANT },
       { Service_Handle := R.hService, Char_UUID_Type := K.UUID_TYPE_128,
         Char_UUID := char3_uuid, Char_Value_Length := 20,
         Char_Properties := K.CHAR_PROP_READ,
         Security_Permissions := K.ATTR_PERMISSION_NONE,
         GATT_Evt_Mask := K.GATT_DONT_NOTIFY_EVENTS, Enc_Key_Size := 0x07,
         Is_Variable := K.CHAR_VALUE_LEN_CONSTANT },
       { Service_Handle := R.hService, Char_UUID_Type := K.UUID_TYPE_128,
         Char_UUID := char4_uuid, Char_Value_Length := 20,
         Char_Properties := K.CHAR_PROP_WRITE ||| K.CHAR_PROP_WRITE_WITHOUT_RESP,
         Security_Permissions := K.ATTR_PERMISSION_NONE,
         GATT_Evt_Mask := K.GATT_NOTIFY_ATTRIBUTE_WRITE, Enc_Key_Size := 0x07,
         Is_Variable := K.CHAR_VALUE_LEN_CONSTANT }] ∧
    (GAP_Peripheral_ConfigService K R w).hService = R.hService ∧
    [char1_uuid, char2_uuid, char3_uuid, char4_uuid].Nodup ∧
    (∀ u ∈ [char1_uuid, char2_uuid, char3_uuid, char4_uuid], u.length = 16) := by
  refine ⟨?_, rfl, by decide, by decide⟩
  simp [GAP_Peripheral_ConfigService, registeredChar, BLUENRG_memcpy, char1_uuid,
    char2_uuid, char3_uuid, char4_uuid]

/-! ## Single writer of the connection context -/

/-- C20: the attribute access handler never changes the connection context: after
`aci_gatt_attribute_modified_event` (any handle, offset, length, payload), after
`aci_gatt_notification_event` and after `TestUpdateCharacteristic` the context
equals the one before, in every field. -/
theorem C20_context_untouched (K : StackDefs)
    (Connection_Handle Attr_Handle Offset Attr_Data_Length : Nat) (Attr_Data : List Nat)
    (Attribute_Handle Attribute_Value_Length : Nat) (Attribute_Value : List Nat)
    (w : World) :
    (aci_gatt_attribute_modified_event K Connection_Handle Attr_Handle Offset
      Attr_Data_Length Attr_Data w).Conn_Details = w.Conn_Details ∧
    (aci_gatt_notification_event Connection_Handle Attribute_Handle Attribute_Value_Length
      Attribute_Value w).Conn_Details = w.Conn_Details ∧
    (TestUpdateCharacteristic w).Conn_Details = w.Conn_Details := by
  refine ⟨?_, rfl, ?_⟩
  · unfold aci_gatt_attribute_modified_event
    split_ifs <;> rfl
  · unfold TestUpdateCharacteristic
    split_ifs <;> rfl

/-! ## Command parsing: duplicated test, exclusiveness -/

/-- C21: the OFF test of the source, with its repeated third conjunct, is equivalent
for every payload to the two-check form; the handler with the repeated check
and the handler with the single check have the same effect on every event; and
the effect depends on the payload through its first two bytes only, so the
third byte is never examined. -/
theorem C21_duplicated_off_test (K : StackDefs)
    (Connection_Handle Attr_Handle Offset Attr_Data_Length : Nat)
    (Attr_Data Attr_Data2 : List Nat) (w : World) :
    (((Attr_Data.getD 0 0 = 0x6F ∨ Attr_Data.getD 0 0 = 0x4F) ∧
        (Attr_Data.getD 1 0 = 0x66 ∨ Attr_Data.getD 1 0 = 0x46) ∧
        (Attr_Data.getD 1 0 = 0x66 ∨ Attr_Data.getD 1 0 = 0x46)) ↔
      ((Attr_Data.getD 0 0 = 0x6F ∨ Attr_Data.getD 0 0 = 0x4F) ∧
        (Attr_Data.getD 1 0 = 0x66 ∨ Attr_Data.getD 1 0 = 0x46))) ∧
    aci_gatt_attribute_modified_event K Connection_Handle Attr_Handle Offset
        Attr_Data_Length Attr_Data w =
      spec_aci_gatt_attribute_modified_event K Connection_Handle Attr_Handle Offset
        Attr_Data_Length Attr_Data w ∧
    (Attr_Data2.getD 0 0 = Attr_Data.getD 0 0 → Attr_Data2.getD 1 0 = Attr_Data.getD 1 0 →
      aci_gatt_attribute_modified_event K Connection_Handle Attr_Handle Offset
          Attr_Data_Length Attr_Data2 w =
        aci_gatt_attribute_modified_event K Connection_Handle Attr_Handle Offset
          Attr_Data_Length Attr_Data w) := by
  refine ⟨⟨fun h => ⟨h.1, h.2.1⟩, fun h => ⟨h.1, h.2, h.2⟩⟩, ?_, fun e0 e1 => ?_⟩
  · unfold aci_gatt_attribute_modified_event spec_aci_gatt_attribute_modified_event
    split_ifs <;> first | rfl | tauto
  · unfold aci_gatt_attribute_modified_event
    rw [e0, e1]

/-- C22: the handler is single-shot and the two commands exclude each other.  The
calls one event adds are either none, or the LED set followed by the ON
acknowledgment, or the LED reset followed by the OFF acknowledgment; so there is
at most one LED write and at most one attribute update, no payload matches both
patterns, and since the two acknowledgment values differ the value pushed tells
which command was recognised. -/
theorem C22_single_shot_exclusive (K : StackDefs)
    (Connection_Handle Attr_Handle Offset Attr_Data_Length : Nat) (Attr_Data : List Nat)
    (w : World) :
    ((((aci_gatt_attribute_modified_event K Connection_Handle Attr_Handle Offset
          Attr_Data_Length Attr_Data w).calls.drop w.calls.length) = [] ∧
        ¬ (Attr_Handle = w.hClientWRITE + 1 ∧ Attr_Data_Length ≥ 2 ∧
          (Attr_Data.getD 0 0 = 0x6F ∨ Attr_Data.getD 0 0 = 0x4F) ∧
          ((Attr_Data.getD 1 0 = 0x6E ∨ Attr_Data.getD 1 0 = 0x4E) ∨
           (Attr_Data.getD 1 0 = 0x66 ∨ Attr_Data.getD 1 0 = 0x46)))) ∨
      (((aci_gatt_attribute_modified_event K Connection_Handle Attr_Handle Offset
          Attr_Data_Length Attr_Data w).calls.drop w.calls.length) =
          [.HAL_GPIO_WritePin K.NUCLEO_LED_GPIO_Port K.NUCLEO_LED_Pin GPIO_PIN_SET,
           .aci_gatt_update_char_value w.hService w.hClientNotification 0 6
              [0x4F, 0x4E, 0x41, 0x43, 0x4B, 0x00]] ∧
        (Attr_Data.getD 1 0 = 0x6E ∨ Attr_Data.getD 1 0 = 0x4E)) ∨
      (((aci_gatt_attribute_modified_event K Connection_Handle Attr_Handle Offset
          Attr_Data_Length Attr_Data w).calls.drop w.calls.length) =
          [.HAL_GPIO_WritePin K.NUCLEO_LED_GPIO_Port K.NUCLEO_LED_Pin GPIO_PIN_RESET,
           .aci_gatt_update_char_value w.hService w.hClientNotification 0 6
              [0x4F, 0x46, 0x46, 0x41, 0x43, 0x4B]] ∧
        (Attr_Data.getD 1 0 = 0x66 ∨ Attr_Data.getD 1 0 = 0x46))) ∧
    (((aci_gatt_attribute_modified_event K Connection_Handle Attr_Handle Offset
        Attr_Data_Length Attr_Data w).calls.drop w.calls.length).filterMap
        ledWrite).length ≤ 1 ∧
    (((aci_gatt_attribute_modified_event K Connection_Handle Attr_Handle Offset
        Attr_Data_Length Attr_Data w).calls.drop w.calls.length).filterMap
        charUpdate).length ≤ 1 ∧
    ¬ ((Attr_Data.getD 1 0 = 0x6E ∨ Attr_Data.getD 1 0 = 0x4E) ∧
       (Attr_Data.getD 1 0 = 0x66 ∨ Attr_Data.getD 1 0 = 0x46)) ∧
    ([0x4F, 0x4E, 0x41, 0x43, 0x4B, 0x00] : List Nat) ≠ [0x4F, 0x46, 0x46, 0x41, 0x43, 0x4B] := by
  have hex : ¬ ((Attr_Data.getD 1 0 = 0x6E ∨ Attr_Data.getD 1 0 = 0x4E) ∧
       (Attr_Data.getD 1 0 = 0x66 ∨ Attr_Data.getD 1 0 = 0x46)) := by omega
  refine ⟨?_, ?_, ?_, hex, by decide⟩
  all_goals
    unfold aci_gatt_attribute_modified_event
    split_ifs <;> simp_all [emit, ledWrite, charUpdate]

/-! ## Connection-complete event: unused arguments -/

/-- C23: the outcome of `hci_le_connection_complete_event` does not depend on
`Status`, `Peer_Address_Type` or `Master_Clock_Accuracy`: two events that agree on
handle, role, peer address, interval, latency and supervision timeout give the
same state from the same prior state; in particular the status becomes
`STATE_CONNECTED` whatever `Status` reports. -/
theorem C23_unused_event_arguments
    (Status Peer_Address_Type Master_Clock_Accuracy : Nat)
    (Status2 Peer_Address_Type2 Master_Clock_Accuracy2 : Nat)
    (Connection_Handle Role : Nat) (Peer_Address : List Nat)
    (Conn_Interval Conn_Latency Supervision_Timeout : Nat) (w : World) :
    hci_le_connection_complete_event Status Connection_Handle Role Peer_Address_Type
        Peer_Address Conn_Interval Conn_Latency Supervision_Timeout Master_Clock_Accuracy w =
      hci_le_connection_complete_event Status2 Connection_Handle Role Peer_Address_Type2
        Peer_Address Conn_Interval Conn_Latency Supervision_Timeout Master_Clock_Accuracy2 w ∧
    (hci_le_connection_complete_event Status Connection_Handle Role Peer_Address_Type
        Peer_Address Conn_Interval Conn_Latency Supervision_Timeout Master_Clock_Accuracy
        w).Conn_Details.ConnectionStatus = STATE_CONNECTED :=
  ⟨rfl, rfl⟩

/-! ## Reachable states -/

/-- The reset writes the sentinel context whenever the address array holds at most
six bytes. -/
theorem reset_context_eq_of_le (w : World) (hw : w.Conn_Details.BLE_Client_Addr.length ≤ 6) :
    (Server_ResetConnectionStatus w).Conn_Details = sentinelContext := by
  have hdrop : w.Conn_Details.BLE_Client_Addr.drop 6 = [] := List.drop_eq_nil_of_le hw
  simp [Server_ResetConnectionStatus, BLUENRG_memset, sentinelContext, hdrop, List.replicate]

theorem BlueNRG_Loop_switch_success (K : StackDefs) (w : World) :
    (BlueNRG_Loop_switch K K.BLE_STATUS_SUCCESS w).isHalted = false ∧
    (BlueNRG_Loop_switch K K.BLE_STATUS_SUCCESS w).world.Conn_Details =
      (match w.Conn_Details.ConnectionStatus with
       | STATE_NOT_CONNECTED =>
          { w.Conn_Details with ConnectionStatus := STATE_AWAITING_CONNECTION }
       | STATE_AWAITING_CONNECTION => w.Conn_Details
       | STATE_CONNECTED => w.Conn_Details) := by
  rcases w with ⟨dt, g1, g2, g3, u0, u1, u2, u3, u4, h0, h1, h2, h3, h4, d1, d2, d3, d4,
    ⟨addr, role, ch, ci, cl, st, status⟩, cnt, txt, calls⟩
  cases status <;>
    simp [BlueNRG_Loop_switch, BlueNRG_MakeDeviceDiscoverable, Run.andThen, Run.world,
      Run.isHalted, emit]

theorem attribute_modified_Conn_Details (K : StackDefs)
    (Connection_Handle Attr_Handle Offset Attr_Data_Length : Nat) (Attr_Data : List Nat)
    (w : World) :
    (aci_gatt_attribute_modified_event K Connection_Handle Attr_Handle Offset
      Attr_Data_Length Attr_Data w).Conn_Details = w.Conn_Details := by
  unfold aci_gatt_attribute_modified_event
  split_ifs <;> rfl

theorem TestUpdateCharacteristic_Conn_Details (w : World) :
    (TestUpdateCharacteristic w).Conn_Details = w.Conn_Details := by
  unfold TestUpdateCharacteristic
  split_ifs <;> rfl

/-- One step keeps the invariant of the running system: the address array does not
grow, and outside `STATE_CONNECTED` the context holds the reset values. -/
theorem applyStep_invariant (K : StackDefs) (s : Step) (w : World)
    (hlen : w.Conn_Details.BLE_Client_Addr.length ≤ 6)
    (hinv : w.Conn_Details.ConnectionStatus ≠ STATE_CONNECTED →
      w.Conn_Details = { sentinelContext with
        ConnectionStatus := w.Conn_Details.ConnectionStatus }) :
    (applyStep K s w).Conn_Details.BLE_Client_Addr.length ≤ 6 ∧
    ((applyStep K s w).Conn_Details.ConnectionStatus ≠ STATE_CONNECTED →
      (applyStep K s w).Conn_Details = { sentinelContext with
        ConnectionStatus := (applyStep K s w).Conn_Details.ConnectionStatus }) := by
  cases s with
  | tick =>
    have hc := (BlueNRG_Loop_switch_success K w).2
    simp only [applyStep]
    rw [hc]
    cases hst : w.Conn_Details.ConnectionStatus with
    | STATE_NOT_CONNECTED =>
      have h1 := hinv (by rw [hst]; decide)
      rw [hst] at h1
      refine ⟨hlen, fun _ => ?_⟩
      simp only []
      rw [h1]
    | STATE_AWAITING_CONNECTION =>
      refine ⟨hlen, fun _ => ?_⟩
      simp only []
      have h1 := hinv (by rw [hst]; decide)
      rw [hst] at h1
      rw [hst]
      exact h1
    | STATE_CONNECTED =>
      refine ⟨hlen, fun hne => ?_⟩
      simp only [] at hne
      exact absurd hst hne
  | connection_complete st ch role pat pa ci cl sto mca =>
    have hdrop : w.Conn_Details.BLE_Client_Addr.drop 6 = [] := List.drop_eq_nil_of_le hlen
    refine ⟨?_, fun hne => absurd rfl hne⟩
    simp [applyStep, hci_le_connection_complete_event, BLUENRG_memcpy, hdrop]
  | disconnection_complete st ch reason =>
    have hr : (applyStep K (.disconnection_complete st ch reason) w).Conn_Details =
        sentinelContext := reset_context_eq_of_le w hlen
    rw [hr]
    exact ⟨by decide, fun _ => rfl⟩
  | attribute_modified ch ah off len data =>
    have hr : (applyStep K (.attribute_modified ch ah off len data) w).Conn_Details =
        w.Conn_Details := attribute_modified_Conn_Details K ch ah off len data w
    rw [hr]
    exact ⟨hlen, hinv⟩
  | refresh =>
    have hr : (applyStep K .refresh w).Conn_Details = w.Conn_Details :=
      TestUpdateCharacteristic_Conn_Details w
    rw [hr]
    exact ⟨hlen, hinv⟩

theorem runSteps_invariant (K : StackDefs) (steps : List Step) (w : World)
    (hlen : w.Conn_Details.BLE_Client_Addr.length ≤ 6)
    (hinv : w.Conn_Details.ConnectionStatus ≠ STATE_CONNECTED →
      w.Conn_Details = { sentinelContext with
        ConnectionStatus := w.Conn_Details.ConnectionStatus }) :
    (runSteps K steps w).Conn_Details.ConnectionStatus ≠ STATE_CONNECTED →
      (runSteps K steps w).Conn_Details = { sentinelContext with
        ConnectionStatus := (runSteps K steps w).Conn_Details.ConnectionStatus } := by
  induction steps generalizing w with
  | nil => exact hinv
  | cons s t ih =>
    obtain ⟨h1, h2⟩ := applyStep_invariant K s w hlen hinv
    exact ih (applyStep K s w) h1 h2

/-- C24: reachable-state invariant.  Start from the state in which `BlueNRG_Init`
returned and take any finite sequence of steps among: loop tick with successful
advertising (which always returns), connection-complete event,
disconnection-complete event, attribute-modified event, characteristic refresh.
Whenever the status reached is not `STATE_CONNECTED`, the context holds the
reset values: address six zero bytes, handle, interval, latency and supervision
timeout `0xFFFF`, role `0xFF`. -/
theorem C24_reachable_invariant (K : StackDefs) (E : InitReplies) (boot w0 : World)
    (steps : List Step)
    (hboot : boot.Conn_Details.BLE_Client_Addr.length = 6)
    (hinit : BlueNRG_Init K E boot = .returned w0)
    (hs : (runSteps K steps w0).Conn_Details.ConnectionStatus ≠ STATE_CONNECTED) :
    (runSteps K steps w0).Conn_Details.BLE_Client_Addr = [0, 0, 0, 0, 0, 0] ∧
    (runSteps K steps w0).Conn_Details.connectionhandle = 0xFFFF ∧
    (runSteps K steps w0).Conn_Details.BLE_ConnInterval = 0xFFFF ∧
    (runSteps K steps w0).Conn_Details.BLE_ConnLatency = 0xFFFF ∧
    (runSteps K steps w0).Conn_Details.BLE_SupervisionTimeout = 0xFFFF ∧
    (runSteps K steps w0).Conn_Details.deviceRole = 0xFF ∧
    (∀ w : World, (BlueNRG_Loop_switch K K.BLE_STATUS_SUCCESS w).isHalted = false) := by
  obtain ⟨w1, hw1, rfl⟩ := init_returned_context K E boot w0 hinit
  have h0 : (Server_ResetConnectionStatus w1).Conn_Details = sentinelContext :=
    reset_context_eq w1 (by rw [hw1]; exact hboot)
  have hfin := runSteps_invariant K steps (Server_ResetConnectionStatus w1)
    (by rw [h0]; decide) (by intro _; rw [h0]) hs
  refine ⟨?_, ?_, ?_, ?_, ?_, ?_, fun w => (BlueNRG_Loop_switch_success K w).1⟩ <;>
    (rw [hfin]; rfl)

theorem C24_reachable_invariant_witness :
    (runSteps sampleDefs
      [.tick,
       .connection_complete 0 0x0801 0x01 0 [0xA1, 0xB2, 0xC3, 0xD4, 0xE5, 0xF6] 24 0 72 0,
       .tick,
       .attribute_modified 0x0801 25 0 2 [0x4F, 0x4E],
       .refresh,
       .disconnection_complete 0 0x0801 0x13,
       .tick]
      (BlueNRG_Init sampleDefs sampleReplies bootWorld).world).Conn_Details =
      { BLE_Client_Addr := [0, 0, 0, 0, 0, 0], deviceRole := 0xFF,
        connectionhandle := 0xFFFF, BLE_ConnInterval := 0xFFFF, BLE_ConnLatency := 0xFFFF,
        BLE_SupervisionTimeout := 0xFFFF, ConnectionStatus := STATE_AWAITING_CONNECTION } := by
  have h := C24_reachable_invariant sampleDefs sampleReplies bootWorld
    (BlueNRG_Init sampleDefs sampleReplies bootWorld).world
    [.tick,
     .connection_complete 0 0x0801 0x01 0 [0xA1, 0xB2, 0xC3, 0xD4, 0xE5, 0xF6] 24 0 72 0,
     .tick,
     .attribute_modified 0x0801 25 0 2 [0x4F, 0x4E],
     .refresh,
     .disconnection_complete 0 0x0801 0x13,
     .tick]
    (by decide) (by decide) (by decide)
  obtain ⟨a, b, c, d, e, f, _⟩ := h
  have hst : (runSteps sampleDefs
      [.tick,
       .connection_complete 0 0x0801 0x01 0 [0xA1, 0xB2, 0xC3, 0xD4, 0xE5, 0xF6] 24 0 72 0,
       .tick,
       .attribute_modified 0x0801 25 0 2 [0x4F, 0x4E],
       .refresh,
       .disconnection_complete 0 0x0801 0x13,
       .tick]
      (BlueNRG_Init sampleDefs sampleReplies bootWorld).world).Conn_Details.ConnectionStatus =
      STATE_AWAITING_CONNECTION := by decide
  generalize (runSteps sampleDefs _ _).Conn_Details = c0 at a b c d e f hst ⊢
  cases c0
  simp_all

/-! ## Descriptor value lengths -/

/-- C25 (code defect): for each of the four user-description descriptors the value
length passed to `aci_gatt_add_char_desc` is one more than the size of the name
array passed with it: 9 for the 8-byte `char1name` and `char2name`, 11 for the
10-byte `char3name`, 10 for the 9-byte `char4name`.  Each declared length stays
within the declared maximum 128. -/
theorem C25_descriptor_length_exceeds_buffer (K : StackDefs) (R : ConfigReplies)
    (w : World) :
    ((GAP_Peripheral_ConfigService K R w).calls.drop w.calls.length).filterMap
        descriptorValue =
      [(128, 9, 8), (128, 9, 8), (128, 11, 10), (128, 10, 9)] ∧
    char1name.length = 8 ∧ char2name.length = 8 ∧ char3name.length = 10 ∧
    char4name.length = 9 ∧
    (∀ d ∈ ((GAP_Peripheral_ConfigService K R w).calls.drop w.calls.length).filterMap
        descriptorValue, d.2.1 = d.2.2 + 1 ∧ d.2.1 ≤ d.1) := by
  have hlist : ((GAP_Peripheral_ConfigService K R w).calls.drop w.calls.length).filterMap
      descriptorValue = [(128, 9, 8), (128, 9, 8), (128, 11, 10), (128, 10, 9)] := by
    simp [GAP_Peripheral_ConfigService, descriptorValue, char1name, char2name, char3name,
      char4name]
  refine ⟨hlist, by decide, by decide, by decide, by decide, ?_⟩
  rw [hlist]
  decide

end BLE
